import Mathlib

/-!
# CoreAudioFoundationC: status-code codec, diagnostic reporter, property accessor

A shallow embedding of `ca_error_handling.c` and `ca_property_helpers.c`.

Conventions of the embedding

* `OSStatus` (a signed 32-bit integer) is an `Int`; `UInt32` is a `Nat` reduced
  modulo `2^32`. The two casts of the source are `toUInt32` and `toOSStatus`.
* A byte is a `Nat`; a `char` cell keeps the low eight bits. A C string is the
  list of the bytes of the array; reading past its end reads the terminating
  NUL.
* A nullable pointer to a value is an `Option` of the pointee; a handle
  (`AudioFileID`) and a function pointer are plain numbers, `0` being `NULL`.
* The functions of AudioToolbox are a parameter (`AudioToolbox`), a state
  machine that answers every call; every call of them and of an error handler
  is recorded in a trace of `Event`s.
-/

namespace CoreAudio

/-! ## Machine integers and C strings -/

/-- The cast `(UInt32)x`: reduction modulo `2^32`. -/
def toUInt32 (x : Int) : Nat := (x % 4294967296).toNat

/-- The cast `(OSStatus)u` of a `UInt32`: reinterpretation as a signed 32-bit integer. -/
def toOSStatus (u : Nat) : Int :=
  if u % 4294967296 < 2147483648 then ((u % 4294967296 : Nat) : Int)
  else ((u % 4294967296 : Nat) : Int) - 4294967296

/-- Membership of the `OSStatus` range, `-2^31 ≤ v < 2^31`. -/
def IsOSStatus (v : Int) : Prop := -2147483648 ≤ v ∧ v < 2147483648

instance (v : Int) : Decidable (IsOSStatus v) := by
  unfold IsOSStatus; infer_instance

/-- The value of a `char` cell that holds byte `b`, promoted to `int`. `char` is a
signed type on the platforms that ship AudioToolbox, so bytes from `0x80` up
are negative. -/
def charValue (b : Nat) : Int :=
  if b % 256 < 128 then ((b % 256 : Nat) : Int) else ((b % 256 : Nat) : Int) - 256

/-- The expression `string[i]` on a C string: the cell `i`, NUL past the end. -/
def charAt (string : List Nat) (i : Nat) : Int := charValue (string.getD i 0)

/-- The libc `strlen`: the number of cells before the first NUL. -/
def strlen (string : List Nat) : Nat := (string.takeWhile (fun b => b % 256 != 0)).length

/-- The libc `isprint` in the "C" locale: `0x20 ..= 0x7E`. -/
def isprint (c : Int) : Bool := decide (32 ≤ c ∧ c ≤ 126)

/-- The shift `x << k` on `UInt32`. -/
def shl32 (x k : Nat) : Nat := (x <<< k) % 4294967296

/-- Decimal digits of `n`, most significant first, as ASCII bytes; `fuel` bounds
the number of digits. -/
def decDigits : Nat → Nat → List Nat
  | 0, _ => []
  | fuel + 1, n => if n < 10 then [48 + n] else decDigits fuel (n / 10) ++ [48 + n % 10]

/-- The conversion `%d` of printf on a 32-bit `int` (at most ten digits). -/
def formatInt (v : Int) : List Nat :=
  if v < 0 then 45 :: decDigits 10 (-v).toNat else decDigits 10 v.toNat

/-- The conversion `%s` of printf: the cells up to the first NUL. -/
def formatStr (s : List Nat) : List Nat := s.takeWhile (fun b => b % 256 != 0)

/-- A heap string: the size given to `malloc` and the text stored in it (the
bytes before the terminating NUL). -/
structure CString where
  capacity : Nat
  text : List Nat
  deriving DecidableEq

/-- The libc `snprintf(buf, n, ...)`: at most `n - 1` bytes of the formatted
text are stored, then a NUL. -/
def snprintf (n : Nat) (formatted : List Nat) : List Nat := formatted.take (n - 1)

/-! ## Status constants of the platform headers -/

/-- The success status. -/
def noErr : Int := 0

/-- The constant `kAudioFileUnsupportedDataFormatError` of `AudioFile.h`, the code `'fmt?'`. -/
def kAudioFileUnsupportedDataFormatError : Int := 0x666D743F

/-- The constant `kAudioFileUnsupportedPropertyError` of `AudioFile.h`, the code `'pty?'`. -/
def kAudioFileUnsupportedPropertyError : Int := 0x7074793F

/-- The constant `kAudioFileInvalidFileError` of `AudioFile.h`, the code `'dta?'`. -/
def kAudioFileInvalidFileError : Int := 0x6474613F

/-! ## ca_error_handling.c: the codec -/

/-- The array `codeChars` after `CFSwapInt32HostToBig` and `memcpy`: cell `i` holds
bits `31-8i .. 24-8i` of the code, whatever the byte order of the host. -/
def codeChars (code : Int) (i : Nat) : Nat := (toUInt32 code / 2 ^ (8 * (3 - i))) % 256

/-- The source's `IsPrintableFourCharCode`. -/
def IsPrintableFourCharCode (code : Int) : Bool :=
  (List.range 4).all (fun i => isprint (charValue (codeChars code i)))

/-- The source's `FourCharCodeToString`; `mallocOk` tells whether its one `malloc`
succeeds, and `none` is the `NULL` returned when it does not. -/
def FourCharCodeToString (mallocOk : Bool) (code : Int) : Option CString :=
  if code = noErr then
    if mallocOk then some ⟨8, [110, 111, 69, 114, 114]⟩ else none
  else
    let chars := (List.range 4).map (codeChars code)
    let isPrintable := (List.range 4).all (fun i => isprint (charValue (codeChars code i)))
    if isPrintable then
      if mallocOk then some ⟨7, snprintf 7 ([39] ++ formatStr chars ++ [39])⟩ else none
    else
      if mallocOk then some ⟨12, snprintf 12 (formatInt code)⟩ else none

/-- The source's `StringToFourCharCode`; `none` is a `NULL` argument. -/
def StringToFourCharCode (string : Option (List Nat)) : Int :=
  match string with
  | none => kAudioFileUnsupportedDataFormatError
  | some s =>
    if strlen s ≠ 4 then kAudioFileUnsupportedDataFormatError
    else
      let code := shl32 (toUInt32 (charAt s 0)) 24 ||| shl32 (toUInt32 (charAt s 1)) 16 |||
        shl32 (toUInt32 (charAt s 2)) 8 ||| toUInt32 (charAt s 3)
      toOSStatus code

/-- The quoted-tag text of a code: a quote, its four big-endian bytes, a quote. -/
def quotedTag (code : Int) : List Nat :=
  [39, codeChars code 0, codeChars code 1, codeChars code 2, codeChars code 3, 39]

/-- The decimal string of an integer, as the bytes of its ASCII text: an optional
minus sign and the decimal digits, most significant first. -/
def decimalString (v : Int) : List Nat := (Int.repr v).toList.map Char.toNat

/-- The text "noErr". -/
def noErrText : List Nat := [110, 111, 69, 114, 114]

/-! ## Observable calls -/

/-- One observable call made while a function of the library runs: an error
handler being invoked with its four arguments, or a function of AudioToolbox
being called (with the status it returned). -/
inductive Event where
  | customHandler (handler : Nat) (error : Int) (operation file : String) (line : Nat)
  | standardHandler (error : Int) (operation file : String) (line : Nat)
  | propertyInfo (audioFile propertyID : Nat) (status : Int)
  | getProperty (audioFile propertyID : Nat) (ioDataSize : Nat) (status : Int)
  deriving DecidableEq

/-- Whether the event is the invocation of an error handler. -/
def Event.isHandler : Event → Bool
  | .customHandler _ _ _ _ _ => true
  | .standardHandler _ _ _ _ => true
  | _ => false

/-- Whether the event is a call of the foreign fetch `AudioFileGetProperty`. -/
def Event.isFetch : Event → Bool
  | .getProperty _ _ _ _ => true
  | _ => false

/-! ## ca_error_handling.c: the reporter -/

/-- The static `StandardErrorHandler`, recorded as its invocation (it renders the
status with `FourCharCodeToString` and prints one line on `stderr`). -/
def StandardErrorHandler (error : Int) (operation file : String) (line : Nat) : List Event :=
  [Event.standardHandler error operation file line]

/-- The source's `CheckErrorWithFile`, for the value `g_errorHandler` of the global
handler pointer (`0` is `NULL`): the handler calls it makes. -/
def CheckErrorWithFile (g_errorHandler : Nat) (error : Int) (operation file : String)
    (line : Nat) : List Event :=
  if error = noErr then []
  else if g_errorHandler ≠ 0 then [Event.customHandler g_errorHandler error operation file line]
  else StandardErrorHandler error operation file line

/-- The source's `CheckError`. -/
def CheckError (g_errorHandler : Nat) (error : Int) (operation : String) : List Event :=
  CheckErrorWithFile g_errorHandler error operation "unknown" 0

/-- The source's `SetCustomErrorHandler`: the new value of `g_errorHandler`. -/
def SetCustomErrorHandler (_g_errorHandler : Nat) (handler : Nat) : Nat := handler

/-- The source's `ResetErrorHandler`: the new value of `g_errorHandler`. -/
def ResetErrorHandler (_g_errorHandler : Nat) : Nat := 0

/-- A call that changes the installed handler. -/
inductive HandlerOp where
  | install (handler : Nat)
  | reset
  deriving DecidableEq

/-- The effect of one handler call on `g_errorHandler`. -/
def HandlerOp.apply (g_errorHandler : Nat) : HandlerOp → Nat
  | .install handler => SetCustomErrorHandler g_errorHandler handler
  | .reset => ResetErrorHandler g_errorHandler

/-- The value of `g_errorHandler` after a sequence of handler calls made from
process start, where the static initialiser leaves it `NULL`. -/
def handlerAfter (ops : List HandlerOp) : Nat := ops.foldl HandlerOp.apply 0

/-! ## AudioToolbox, the foreign capability -/

/-- What `AudioFileGetPropertyInfo` leaves behind: its status and the values of
`*outDataSize` and `*isWritable` after the call. -/
structure InfoReply where
  status : Int
  dataSize : Nat
  isWritable : Nat
  deriving DecidableEq

/-- What `AudioFileGetProperty` leaves behind: its status, the value of
`*ioDataSize` and the bytes of the buffer after the call. -/
structure DataReply where
  status : Int
  dataSize : Nat
  data : List Nat
  deriving DecidableEq

/-- The two functions of AudioToolbox the library calls, over a state `σ` of the
foreign side. `AudioFileGetPropertyInfo w audioFile propertyID size writable`
receives the current value of `*outDataSize` and of `*isWritable` (`none`
for a `NULL` pointer); `AudioFileGetProperty w audioFile propertyID size data`
receives the current `*ioDataSize` and buffer. Each answers with a reply and
the next state. -/
structure AudioToolbox (σ : Type) where
  AudioFileGetPropertyInfo : σ → Nat → Nat → Nat → Option Nat → InfoReply × σ
  AudioFileGetProperty : σ → Nat → Nat → Nat → List Nat → DataReply × σ

/-! ## ca_property_helpers.c -/

/-- The expansion of `__FILE__` in `ca_property_helpers.c`. -/
def sourceFile : String := "ca_property_helpers.c"

/-- The result of a boolean check: its value, the foreign state and the calls made. -/
structure CheckResult (σ : Type) where
  value : Bool
  world : σ
  trace : List Event

/-- The result of `GetAudioFilePropertyInfo`: the status, the pointees of
`outDataSize` and `isWritable` after the call (`none` for a `NULL` pointer). -/
structure InfoResult (σ : Type) where
  status : Int
  outDataSize : Option Nat
  isWritable : Option Nat
  world : σ
  trace : List Event

/-- The result of `GetAudioFileProperty`: the status, the pointees of `ioDataSize`
and `outPropertyData` after the call (`none` for a `NULL` pointer). -/
structure PropertyResult (σ : Type) where
  status : Int
  ioDataSize : Option Nat
  outPropertyData : Option (List Nat)
  world : σ
  trace : List Event

/-- The source's `IsPropertySupported`. -/
def IsPropertySupported {σ : Type} (tb : AudioToolbox σ) (w : σ) (audioFile propertyID : Nat) :
    CheckResult σ :=
  let reply := tb.AudioFileGetPropertyInfo w audioFile propertyID 0 none
  ⟨decide (reply.1.status = noErr), reply.2,
    [Event.propertyInfo audioFile propertyID reply.1.status]⟩

/-- The source's `IsPropertyWritable`. -/
def IsPropertyWritable {σ : Type} (tb : AudioToolbox σ) (w : σ) (audioFile propertyID : Nat) :
    CheckResult σ :=
  let reply := tb.AudioFileGetPropertyInfo w audioFile propertyID 0 (some 0)
  ⟨decide (reply.1.status = noErr) && decide (reply.1.isWritable ≠ 0), reply.2,
    [Event.propertyInfo audioFile propertyID reply.1.status]⟩

/-- The source's `GetAudioFileProperty`, for the installed handler `g_errorHandler`
and the foreign state `w`. -/
def GetAudioFileProperty {σ : Type} (tb : AudioToolbox σ) (g_errorHandler : Nat) (w : σ)
    (audioFile propertyID : Nat) (ioDataSize : Option Nat)
    (outPropertyData : Option (List Nat)) : PropertyResult σ :=
  match ioDataSize, outPropertyData with
  | some size, some data =>
    if audioFile = 0 then ⟨kAudioFileInvalidFileError, ioDataSize, outPropertyData, w, []⟩
    else
      let supported := IsPropertySupported tb w audioFile propertyID
      if !supported.value then
        ⟨kAudioFileUnsupportedPropertyError, ioDataSize, outPropertyData, supported.world,
          supported.trace⟩
      else
        let reply := tb.AudioFileGetProperty supported.world audioFile propertyID size data
        let result := reply.1.status
        let report :=
          if result ≠ noErr then
            CheckErrorWithFile g_errorHandler result "AudioFileGetProperty" sourceFile 24
          else []
        ⟨result, some reply.1.dataSize, some reply.1.data, reply.2,
          supported.trace ++ [Event.getProperty audioFile propertyID size result] ++ report⟩
  | _, _ => ⟨kAudioFileInvalidFileError, ioDataSize, outPropertyData, w, []⟩

/-- The source's `GetAudioFilePropertyInfo`, for the installed handler
`g_errorHandler` and the foreign state `w`. -/
def GetAudioFilePropertyInfo {σ : Type} (tb : AudioToolbox σ) (g_errorHandler : Nat) (w : σ)
    (audioFile propertyID : Nat) (outDataSize : Option Nat) (isWritable : Option Nat) :
    InfoResult σ :=
  match outDataSize with
  | some size =>
    if audioFile = 0 then ⟨kAudioFileInvalidFileError, outDataSize, isWritable, w, []⟩
    else
      let reply := tb.AudioFileGetPropertyInfo w audioFile propertyID size isWritable
      let result := reply.1.status
      let report :=
        if result ≠ noErr then
          CheckErrorWithFile g_errorHandler result "AudioFileGetPropertyInfo" sourceFile 41
        else []
      ⟨result, some reply.1.dataSize, isWritable.map (fun _ => reply.1.isWritable), reply.2,
        [Event.propertyInfo audioFile propertyID result] ++ report⟩
  | none => ⟨kAudioFileInvalidFileError, outDataSize, isWritable, w, []⟩

/-! ## A test double of the foreign capability -/

/-- The property id `'fmt '`. -/
def fmtProperty : Nat := 0x666D7420

/-- A stateless file that knows one property, `'fmt '`, of size 8 and not
writable, with payload `1 .. 8`; any other id is answered with
`kAudioFileUnsupportedPropertyError`, a `NULL` file with
`kAudioFileInvalidFileError`, and the out-parameters are then left alone. -/
def fmtFile : AudioToolbox Unit where
  AudioFileGetPropertyInfo := fun w audioFile propertyID size writable =>
    if audioFile = 0 then (⟨kAudioFileInvalidFileError, size, writable.getD 0⟩, w)
    else if propertyID = fmtProperty then (⟨noErr, 8, 0⟩, w)
    else (⟨kAudioFileUnsupportedPropertyError, size, writable.getD 0⟩, w)
  AudioFileGetProperty := fun w audioFile propertyID size data =>
    if audioFile = 0 then (⟨kAudioFileInvalidFileError, size, data⟩, w)
    else if propertyID = fmtProperty then
      if 8 ≤ size then (⟨noErr, 8, [1, 2, 3, 4, 5, 6, 7, 8] ++ data.drop 8⟩, w)
      else (⟨-50, size, data⟩, w)
    else (⟨kAudioFileUnsupportedPropertyError, size, data⟩, w)

/-- A file whose fetch of `'fmt '` fails with status `-38` although the probe
succeeds. -/
def brokenFile : AudioToolbox Unit where
  AudioFileGetPropertyInfo := fmtFile.AudioFileGetPropertyInfo
  AudioFileGetProperty := fun w _ _ size data => (⟨-38, size, data⟩, w)

/-! ## ca_property_helpers.c: the typed getters -/

/-- The size in bytes of a reference (`CFStringRef`, `CFNumberRef`,
`CFDictionaryRef`), a pointer of the 64-bit targets. -/
def sizeofRef : Nat := 8

/-- The reference held by the bytes of a local, least significant byte first. -/
def refValue (bytes : List Nat) : Nat := bytes.foldr (fun b acc => b % 256 + 256 * acc) 0

/-- The result of a typed getter: the status and the pointee of the output
pointer after the call (`none` for a `NULL` pointer; a reference is a number,
`0` being `NULL`). `fault` tells that the fetch stored more bytes than the
reference-sized local holds, which overruns the stack frame (undefined
behaviour in C); the other fields then mean nothing. -/
structure TypedResult (σ : Type) where
  status : Int
  out : Option Nat
  world : σ
  trace : List Event
  fault : Bool

/-- The source's `GetAudioFileStringProperty`. The local `string` is a reference-sized
buffer, `NULL` at first, handed to the fetch with the probed size as its
announced capacity. -/
def GetAudioFileStringProperty {σ : Type} (tb : AudioToolbox σ) (g_errorHandler : Nat)
    (w : σ) (audioFile propertyID : Nat) (outString : Option Nat) : TypedResult σ :=
  match outString with
  | none => ⟨kAudioFileInvalidFileError, outString, w, [], false⟩
  | some _ =>
    let info := GetAudioFilePropertyInfo tb g_errorHandler w audioFile propertyID (some 0) none
    if info.status ≠ noErr then ⟨info.status, outString, info.world, info.trace, false⟩
    else
      let dataSize := info.outDataSize.getD 0
      if dataSize = 0 then ⟨noErr, some 0, info.world, info.trace, false⟩
      else
        let get := GetAudioFileProperty tb g_errorHandler info.world audioFile propertyID
          (some dataSize) (some (List.replicate sizeofRef 0))
        let stored := get.outPropertyData.getD []
        let string := refValue (stored.take sizeofRef)
        ⟨get.status, if get.status = noErr then some string else outString, get.world,
          info.trace ++ get.trace, decide (sizeofRef < stored.length)⟩

/-- The source's `GetAudioFileNumberProperty`. The local `number` is a reference-sized
buffer, `NULL` at first, handed to the fetch with the probed size as its
announced capacity. -/
def GetAudioFileNumberProperty {σ : Type} (tb : AudioToolbox σ) (g_errorHandler : Nat)
    (w : σ) (audioFile propertyID : Nat) (outNumber : Option Nat) : TypedResult σ :=
  match outNumber with
  | none => ⟨kAudioFileInvalidFileError, outNumber, w, [], false⟩
  | some _ =>
    let info := GetAudioFilePropertyInfo tb g_errorHandler w audioFile propertyID (some 0) none
    if info.status ≠ noErr then ⟨info.status, outNumber, info.world, info.trace, false⟩
    else
      let dataSize := info.outDataSize.getD 0
      if dataSize = 0 then ⟨noErr, some 0, info.world, info.trace, false⟩
      else
        let get := GetAudioFileProperty tb g_errorHandler info.world audioFile propertyID
          (some dataSize) (some (List.replicate sizeofRef 0))
        let stored := get.outPropertyData.getD []
        let number := refValue (stored.take sizeofRef)
        ⟨get.status, if get.status = noErr then some number else outNumber, get.world,
          info.trace ++ get.trace, decide (sizeofRef < stored.length)⟩

/-- The source's `GetAudioFileDictionaryProperty`. The local `dictionary` is a reference-sized
buffer, `NULL` at first, handed to the fetch with the probed size as its
announced capacity. -/
def GetAudioFileDictionaryProperty {σ : Type} (tb : AudioToolbox σ) (g_errorHandler : Nat)
    (w : σ) (audioFile propertyID : Nat) (outDictionary : Option Nat) : TypedResult σ :=
  match outDictionary with
  | none => ⟨kAudioFileInvalidFileError, outDictionary, w, [], false⟩
  | some _ =>
    let info := GetAudioFilePropertyInfo tb g_errorHandler w audioFile propertyID (some 0) none
    if info.status ≠ noErr then ⟨info.status, outDictionary, info.world, info.trace, false⟩
    else
      let dataSize := info.outDataSize.getD 0
      if dataSize = 0 then ⟨noErr, some 0, info.world, info.trace, false⟩
      else
        let get := GetAudioFileProperty tb g_errorHandler info.world audioFile propertyID
          (some dataSize) (some (List.replicate sizeofRef 0))
        let stored := get.outPropertyData.getD []
        let dictionary := refValue (stored.take sizeofRef)
        ⟨get.status, if get.status = noErr then some dictionary else outDictionary, get.world,
          info.trace ++ get.trace, decide (sizeofRef < stored.length)⟩

/-! ## The heap -/

/-- The struct `CAPropertyData` of the header: the payload pointer (`0` is `NULL`),
the size field and the property id. -/
structure CAPropertyData where
  data : Nat
  size : Nat
  propertyID : Nat
  deriving DecidableEq

/-- A block of the heap: a `CAPropertyData` record, or a byte buffer of the size
given to `malloc` with its content. -/
inductive Block where
  | record (r : CAPropertyData)
  | bytes (capacity : Nat) (content : List Nat)
  deriving DecidableEq

/-- The heap: the last address handed out, the live blocks by address, the log of
the addresses passed to `free`, and whether released or unknown storage was
read or freed (undefined behaviour in C). -/
structure Heap where
  next : Nat
  live : List (Nat × Block)
  freed : List Nat
  fault : Bool
  deriving DecidableEq

/-- The heap at process start. -/
def Heap.empty : Heap := ⟨0, [], [], false⟩

/-- Every live address has been handed out by `malloc`: it is not `NULL` and not
above the last address handed out. -/
def Heap.WellFormed (h : Heap) : Prop := ∀ e ∈ h.live, 1 ≤ e.1 ∧ e.1 ≤ h.next

instance (h : Heap) : Decidable h.WellFormed := by
  unfold Heap.WellFormed; infer_instance

/-- The libc `malloc`: a fresh non-null address holding block `b`, or `NULL` when
`ok` is false. -/
def Heap.malloc (h : Heap) (ok : Bool) (b : Block) : Nat × Heap :=
  if ok then (h.next + 1, ⟨h.next + 1, (h.next + 1, b) :: h.live, h.freed, h.fault⟩)
  else (0, h)

/-- The block at a live address. -/
def Heap.read (h : Heap) (p : Nat) : Option Block :=
  (h.live.find? (fun e => e.1 == p)).map (fun e => e.2)

/-- A store into the block at address `p`. -/
def Heap.write (h : Heap) (p : Nat) (b : Block) : Heap :=
  ⟨h.next, h.live.map (fun e => if e.1 == p then (p, b) else e), h.freed, h.fault⟩

/-- The libc `free` of a non-null pointer: the block is released; freeing an
address that is not live is a fault. -/
def Heap.free (h : Heap) (p : Nat) : Heap :=
  if h.live.any (fun e => e.1 == p) then
    ⟨h.next, h.live.filter (fun e => e.1 != p), h.freed ++ [p], h.fault⟩
  else ⟨h.next, h.live, h.freed ++ [p], true⟩

/-! ## ca_property_helpers.c: the scoped property buffer -/

/-- The result of `CreatePropertyData`: the pointer returned (`0` is `NULL`), the
heap, the foreign state and the calls made. -/
structure CreateResult (σ : Type) where
  buffer : Nat
  heap : Heap
  world : σ
  trace : List Event

/-- The source's `CreatePropertyData`; `structOk` and `dataOk` tell whether its
first and second `malloc` succeed. -/
def CreatePropertyData {σ : Type} (tb : AudioToolbox σ) (g_errorHandler : Nat) (w : σ)
    (heap : Heap) (structOk dataOk : Bool) (audioFile propertyID : Nat) : CreateResult σ :=
  let alloc := heap.malloc structOk (Block.record ⟨0, 0, propertyID⟩)
  let propertyData := alloc.1
  if propertyData = 0 then ⟨0, alloc.2, w, []⟩
  else
    let info := GetAudioFilePropertyInfo tb g_errorHandler w audioFile propertyID (some 0) none
    let size := info.outDataSize.getD 0
    let heap1 := alloc.2.write propertyData (Block.record ⟨0, size, propertyID⟩)
    if info.status ≠ noErr ∨ size = 0 then ⟨0, heap1.free propertyData, info.world, info.trace⟩
    else
      let alloc2 := heap1.malloc dataOk (Block.bytes size (List.replicate size 0))
      let data := alloc2.1
      let heap2 := alloc2.2.write propertyData (Block.record ⟨data, size, propertyID⟩)
      if data = 0 then ⟨0, heap2.free propertyData, info.world, info.trace⟩
      else
        let get := GetAudioFileProperty tb g_errorHandler info.world audioFile propertyID
          (some size) (some (List.replicate size 0))
        let heap3 := (heap2.write data (Block.bytes size (get.outPropertyData.getD []))).write
          propertyData (Block.record ⟨data, get.ioDataSize.getD size, propertyID⟩)
        if get.status ≠ noErr then
          ⟨0, (heap3.free data).free propertyData, get.world, info.trace ++ get.trace⟩
        else ⟨propertyData, heap3, get.world, info.trace ++ get.trace⟩

/-- The source's `FreePropertyData`. Reading the `data` field of a pointer that is
not a live record (released storage) is a fault. -/
def FreePropertyData (heap : Heap) (propertyData : Nat) : Heap :=
  if propertyData = 0 then heap
  else
    match heap.read propertyData with
    | some (Block.record r) =>
      let heap1 := if r.data ≠ 0 then heap.free r.data else heap
      heap1.free propertyData
    | _ => ⟨heap.next, heap.live, heap.freed, true⟩

/-! ## ca_performance.c: the timer -/

/-- The struct `CAPerformanceTimer` of the header. -/
structure CAPerformanceTimer where
  start_time : Nat
  end_time : Nat
  is_running : Bool
  deriving DecidableEq

/-- The struct `mach_timebase_info_data_t` of `mach_time.h`. -/
structure mach_timebase_info_data_t where
  numer : Nat
  denom : Nat
  deriving DecidableEq

/-- The two globals `g_timebase_info` and `g_timebase_initialized`. -/
structure TimebaseState where
  g_timebase_info : mach_timebase_info_data_t
  g_timebase_initialized : Bool
  deriving DecidableEq

/-- The static `InitializeTimebase`; `platform` is what `mach_timebase_info` writes. -/
def InitializeTimebase (platform : mach_timebase_info_data_t) (st : TimebaseState) :
    TimebaseState :=
  if !st.g_timebase_initialized then ⟨platform, true⟩ else st

/-- The static `MachTimeToSeconds`: 64-bit product and quotient, then the division
by `1e9`, kept as an exact rational (the `double` result is its rounding, and
`0` is exact). `none` is the integer division by zero. -/
def MachTimeToSeconds (platform : mach_timebase_info_data_t) (st : TimebaseState)
    (mach_time : Nat) : Option ℚ × TimebaseState :=
  let st1 := InitializeTimebase platform st
  if st1.g_timebase_info.denom = 0 then (none, st1)
  else
    let nanoseconds :=
      (mach_time * st1.g_timebase_info.numer) % 18446744073709551616 / st1.g_timebase_info.denom
    (some ((nanoseconds : ℚ) / 1000000000), st1)

/-- The source's `CreatePerformanceTimer`; `none` is `NULL`. -/
def CreatePerformanceTimer (mallocOk : Bool) : Option CAPerformanceTimer :=
  if mallocOk then some ⟨0, 0, false⟩ else none

/-- The source's `StartTimer`; `now` is the value of `mach_absolute_time()`. -/
def StartTimer (timer : Option CAPerformanceTimer) (now : Nat) : Option CAPerformanceTimer :=
  match timer with
  | some t => some ⟨now, t.end_time, true⟩
  | none => none

/-- The source's `StopTimer`; `now` is the value of `mach_absolute_time()`. -/
def StopTimer (timer : Option CAPerformanceTimer) (now : Nat) : Option CAPerformanceTimer :=
  match timer with
  | some t => if t.is_running then some ⟨t.start_time, now, false⟩ else some t
  | none => none

/-- The local `elapsed` of `GetElapsedSeconds`: the 64-bit difference of the end
time (the clock while the timer runs) and the start time. -/
def elapsedTicks (t : CAPerformanceTimer) (now : Nat) : Nat :=
  let end_time := if t.is_running then now else t.end_time
  (end_time + 18446744073709551616 - t.start_time % 18446744073709551616)
    % 18446744073709551616

/-- The source's `GetElapsedSeconds`; `now` is the value of `mach_absolute_time()`. -/
def GetElapsedSeconds (platform : mach_timebase_info_data_t) (st : TimebaseState)
    (timer : Option CAPerformanceTimer) (now : Nat) : Option ℚ × TimebaseState :=
  match timer with
  | none => (some 0, st)
  | some t => MachTimeToSeconds platform st (elapsedTicks t now)

/-! ## More test doubles -/

/-- A file that reports the property of any handle, `NULL` included. -/
def lenientFile : AudioToolbox Unit where
  AudioFileGetPropertyInfo := fun w _ _ _ _ => (⟨noErr, 8, 1⟩, w)
  AudioFileGetProperty := fun w _ _ _ data => (⟨noErr, 8, data⟩, w)

/-- A file whose probe reports size 8 and whose fetch succeeds leaving size 0. -/
def shrinkingFile : AudioToolbox Unit where
  AudioFileGetPropertyInfo := fun w _ _ _ _ => (⟨noErr, 8, 0⟩, w)
  AudioFileGetProperty := fun w _ _ _ data => (⟨noErr, 0, data⟩, w)

/-- A file whose every property is empty: the probe reports size 0. -/
def emptyFile : AudioToolbox Unit where
  AudioFileGetPropertyInfo := fun w _ _ _ _ => (⟨noErr, 0, 0⟩, w)
  AudioFileGetProperty := fun w _ _ _ data => (⟨noErr, 0, data⟩, w)

/-- A file whose properties are references: the probe reports size 8 and the fetch
stores the eight bytes of the reference `4096`. -/
def referenceFile : AudioToolbox Unit where
  AudioFileGetPropertyInfo := fun w audioFile _ size _ =>
    if audioFile = 0 then (⟨kAudioFileInvalidFileError, size, 0⟩, w) else (⟨noErr, 8, 0⟩, w)
  AudioFileGetProperty := fun w _ _ _ data => (⟨noErr, 8, [0, 16] ++ data.drop 2⟩, w)

/-- The property id `'dfmt'` (`kAudioFilePropertyDataFormat`), whose value is a
40-byte structure and not a reference. -/
def dataFormatProperty : Nat := 0x64666D74

/-- A file whose property is a 40-byte structure, as the data format of an audio
file is: the probe reports size 40 and the fetch stores 40 bytes when told a
capacity of at least 40, and fails with `-50` when told less. -/
def wideFile : AudioToolbox Unit where
  AudioFileGetPropertyInfo := fun w audioFile _ size _ =>
    if audioFile = 0 then (⟨kAudioFileInvalidFileError, size, 0⟩, w) else (⟨noErr, 40, 0⟩, w)
  AudioFileGetProperty := fun w _ _ size data =>
    if 40 ≤ size then (⟨noErr, 40, List.replicate 40 1⟩, w) else (⟨-50, size, data⟩, w)

/-! ## Contracts, in the words of the specification -/

/-- The contract of a typed getter `G` on one call with a non-null output slot
holding `slot`: the value is handed over only on success. If the size probe
(`GetAudioFilePropertyInfo`) fails the getter returns the probe's status and
leaves the slot alone; if the probe succeeds with a non-zero size and the fetch
(`GetAudioFileProperty`) fails, it returns the fetch's status and leaves the
slot alone; if both succeed, it returns `noErr`, the slot holds the reference
the foreign fetch stored, and that fetch was called with the reported size. The
getter faults exactly when the fetch stores more than a reference. -/
def HandsOverOnlyOnSuccess {σ : Type}
    (G : AudioToolbox σ → Nat → σ → Nat → Nat → Option Nat → TypedResult σ)
    (tb : AudioToolbox σ) (g : Nat) (w : σ) (audioFile propertyID slot : Nat) : Prop :=
  let info := GetAudioFilePropertyInfo tb g w audioFile propertyID (some 0) none
  let size := info.outDataSize.getD 0
  let get := GetAudioFileProperty tb g info.world audioFile propertyID (some size)
    (some (List.replicate sizeofRef 0))
  let r := G tb g w audioFile propertyID (some slot)
  (info.status ≠ noErr → r.status = info.status ∧ r.out = some slot ∧ r.fault = false) ∧
  (info.status = noErr → size ≠ 0 → get.status ≠ noErr →
    r.status = get.status ∧ r.out = some slot) ∧
  (info.status = noErr → size ≠ 0 → get.status = noErr →
    r.status = noErr ∧
    r.out = some (refValue ((tb.AudioFileGetProperty
      (tb.AudioFileGetPropertyInfo info.world audioFile propertyID 0 none).2 audioFile
      propertyID size (List.replicate sizeofRef 0)).1.data.take sizeofRef)) ∧
    Event.getProperty audioFile propertyID size noErr ∈ r.trace) ∧
  (r.fault = true ↔
    info.status = noErr ∧ size ≠ 0 ∧ sizeofRef < (get.outPropertyData.getD []).length)

/-- The contract of `CreatePropertyData` on one call, all or nothing. A buffer is
returned exactly when both allocations, the size probe (with a non-zero size)
and the fetch succeed; the buffer then is a fresh record that holds the
requested id, the size left by the fetch and a fresh payload block of the
probed size with the content left by the fetch; when no buffer is returned the
live blocks are those from before the call and no fault occurred. -/
def AllOrNothing {σ : Type} (tb : AudioToolbox σ) (g : Nat) (w : σ) (heap : Heap)
    (structOk dataOk : Bool) (audioFile propertyID : Nat) : Prop :=
  let info := GetAudioFilePropertyInfo tb g w audioFile propertyID (some 0) none
  let size := info.outDataSize.getD 0
  let get := GetAudioFileProperty tb g info.world audioFile propertyID (some size)
    (some (List.replicate size 0))
  let r := CreatePropertyData tb g w heap structOk dataOk audioFile propertyID
  (r.buffer ≠ 0 ↔
    structOk = true ∧ info.status = noErr ∧ size ≠ 0 ∧ dataOk = true ∧ get.status = noErr) ∧
  (r.buffer ≠ 0 →
    r.buffer = heap.next + 1 ∧
    r.heap = ⟨heap.next + 2,
      (heap.next + 2, Block.bytes size (get.outPropertyData.getD [])) ::
        (heap.next + 1, Block.record ⟨heap.next + 2, get.ioDataSize.getD size, propertyID⟩) ::
        heap.live,
      heap.freed, heap.fault⟩) ∧
  (r.buffer = 0 → r.heap.live = heap.live ∧ r.heap.fault = heap.fault)

/-- A string of exactly four printable ASCII bytes. -/
def IsPrintableString (s : List Nat) : Prop := s.length = 4 ∧ ∀ b ∈ s, 32 ≤ b ∧ b ≤ 126

instance (s : List Nat) : Decidable (IsPrintableString s) := by
  unfold IsPrintableString; infer_instance

/-! ## The codec: auxiliary facts -/

theorem pack_or (x0 x1 x2 x3 : Nat) (h0 : x0 < 256) (h1 : x1 < 256) (h2 : x2 < 256)
    (h3 : x3 < 256) :
    shl32 x0 24 ||| shl32 x1 16 ||| shl32 x2 8 ||| x3
      = x0 * 16777216 + x1 * 65536 + x2 * 256 + x3 := by
  have s0 : shl32 x0 24 = 2 ^ 24 * x0 := by
    simp only [shl32, Nat.shiftLeft_eq]; omega
  have s1 : shl32 x1 16 = x1 * 65536 := by
    simp only [shl32, Nat.shiftLeft_eq]; omega
  have s2 : shl32 x2 8 = x2 * 256 := by
    simp only [shl32, Nat.shiftLeft_eq]; omega
  have e1 := Nat.mul_add_lt_is_or (i := 24) (b := x1 * 65536) (by omega) x0
  have e2 := Nat.mul_add_lt_is_or (i := 16) (b := x2 * 256) (by omega) (x0 * 256 + x1)
  have e3 := Nat.mul_add_lt_is_or (i := 8) (b := x3) (by omega) (x0 * 65536 + x1 * 256 + x2)
  have a2 : 2 ^ 16 * (x0 * 256 + x1) = 2 ^ 24 * x0 + x1 * 65536 := by omega
  have a3 : 2 ^ 8 * (x0 * 65536 + x1 * 256 + x2) = 2 ^ 24 * x0 + x1 * 65536 + x2 * 256 := by
    omega
  rw [s0, s1, s2, ← e1, ← a2, ← e2, a2, ← a3, ← e3]
  omega

theorem strlen_four (b0 b1 b2 b3 : Nat) (h0 : b0 % 256 ≠ 0) (h1 : b1 % 256 ≠ 0)
    (h2 : b2 % 256 ≠ 0) (h3 : b3 % 256 ≠ 0) : strlen [b0, b1, b2, b3] = 4 := by
  simp [strlen, List.takeWhile_cons, h0, h1, h2, h3]


theorem toUInt32_toOSStatus (u : Nat) : toUInt32 (toOSStatus u) = u % 4294967296 := by
  unfold toUInt32 toOSStatus
  split <;> omega

theorem toOSStatus_toUInt32 (v : Int) (hv : IsOSStatus v) : toOSStatus (toUInt32 v) = v := by
  unfold IsOSStatus at hv
  unfold toUInt32 toOSStatus
  split <;> omega

theorem shl32_top (b : Nat) : shl32 (toUInt32 (charValue b)) 24 = shl32 b 24 := by
  simp only [shl32, Nat.shiftLeft_eq, toUInt32, charValue]
  split <;> omega

theorem toUInt32_charValue_low (b : Nat) (hb : b < 128) : toUInt32 (charValue b) = b := by
  simp only [toUInt32, charValue]
  split <;> omega

/-- Packing of a four-byte string whose last three bytes are below `0x80`. -/
theorem StringToFourCharCode_pack (b0 b1 b2 b3 : Nat) (h0 : 1 ≤ b0 ∧ b0 ≤ 255)
    (h1 : 1 ≤ b1 ∧ b1 ≤ 127) (h2 : 1 ≤ b2 ∧ b2 ≤ 127) (h3 : 1 ≤ b3 ∧ b3 ≤ 127) :
    StringToFourCharCode (some [b0, b1, b2, b3])
      = toOSStatus (b0 * 16777216 + b1 * 65536 + b2 * 256 + b3) := by
  have hl : strlen [b0, b1, b2, b3] = 4 :=
    strlen_four b0 b1 b2 b3 (by omega) (by omega) (by omega) (by omega)
  simp only [StringToFourCharCode, hl, ne_eq, not_true_eq_false, if_false, charAt,
    List.getD_cons_zero, List.getD_cons_succ]
  rw [shl32_top b0, toUInt32_charValue_low b1 (by omega),
    toUInt32_charValue_low b2 (by omega), toUInt32_charValue_low b3 (by omega),
    pack_or b0 b1 b2 b3 (by omega) (by omega) (by omega) (by omega)]

theorem codeChars_pack (b0 b1 b2 b3 : Nat) (h0 : b0 < 256) (h1 : b1 < 256) (h2 : b2 < 256)
    (h3 : b3 < 256) :
    codeChars (toOSStatus (b0 * 16777216 + b1 * 65536 + b2 * 256 + b3)) 0 = b0 ∧
    codeChars (toOSStatus (b0 * 16777216 + b1 * 65536 + b2 * 256 + b3)) 1 = b1 ∧
    codeChars (toOSStatus (b0 * 16777216 + b1 * 65536 + b2 * 256 + b3)) 2 = b2 ∧
    codeChars (toOSStatus (b0 * 16777216 + b1 * 65536 + b2 * 256 + b3)) 3 = b3 := by
  simp only [codeChars, toUInt32_toOSStatus]
  norm_num
  refine ⟨?_, ?_, ?_, ?_⟩ <;> omega


theorem digitChar_toNat (d : Nat) (hd : d < 10) : (Nat.digitChar d).toNat = 48 + d := by
  interval_cases d <;> rfl

theorem toDigitsCore_decDigits (k : Nat) : ∀ (n f : Nat) (ds : List Char),
    n < 10 ^ (k + 1) → n < f →
    (Nat.toDigitsCore 10 f n ds).map Char.toNat = decDigits (k + 1) n ++ ds.map Char.toNat := by
  induction k with
  | zero =>
    intro n f ds hn hf
    obtain ⟨f, rfl⟩ : ∃ g, f = g + 1 := ⟨f - 1, by omega⟩
    have h10 : n < 10 := by simpa using hn
    have hdiv : n / 10 = 0 := by omega
    have hmod : n % 10 = n := by omega
    simp [Nat.toDigitsCore, decDigits, h10, hdiv, hmod, digitChar_toNat n h10]
  | succ k ih =>
    intro n f ds hn hf
    obtain ⟨f, rfl⟩ : ∃ g, f = g + 1 := ⟨f - 1, by omega⟩
    by_cases h10 : n < 10
    · have hdiv : n / 10 = 0 := by omega
      have hmod : n % 10 = n := by omega
      simp [Nat.toDigitsCore, decDigits, h10, hdiv, hmod, digitChar_toNat n h10]
    · have hdiv : n / 10 ≠ 0 := by omega
      have hlt : n / 10 < 10 ^ (k + 1) := by
        have : n < 10 * 10 ^ (k + 1) := by rw [pow_succ] at hn; omega
        omega
      have hrec := ih (n / 10) f (Nat.digitChar (n % 10) :: ds) hlt (by omega)
      have hd := digitChar_toNat (n % 10) (by omega)
      rw [decDigits, if_neg h10]
      simp only [Nat.toDigitsCore, hdiv, if_false]
      rw [hrec]
      simp [hd]

theorem repr_decDigits (n : Nat) (hn : n < 10 ^ 10) :
    (Nat.repr n).toList.map Char.toNat = decDigits 10 n := by
  have h := toDigitsCore_decDigits 9 n (n + 1) [] hn (by omega)
  simpa [Nat.repr, Nat.toDigits, List.asString] using h

/-- The model of `%d` agrees with the decimal rendering of the integer. -/
theorem formatInt_eq_repr (v : Int) (hv : IsOSStatus v) :
    formatInt v = (Int.repr v).toList.map Char.toNat := by
  unfold IsOSStatus at hv
  unfold formatInt
  cases v with
  | ofNat m =>
    have hm : (Int.ofNat m) = (m : Int) := rfl
    have h0 : ¬ ((Int.ofNat m) < 0) := by rw [hm]; omega
    rw [if_neg h0]
    have : (Int.ofNat m).toNat = m := rfl
    rw [this, Int.repr, repr_decDigits m (by rw [hm] at hv; omega)]
  | negSucc m =>
    have h0 : Int.negSucc m < 0 := Int.negSucc_lt_zero m
    rw [if_pos h0]
    have : (-(Int.negSucc m)).toNat = m + 1 := by
      rw [Int.neg_negSucc]; rfl
    rw [this, Int.repr]
    have hb : m + 1 < 10 ^ 10 := by
      have := hv.1
      rw [Int.negSucc_eq] at this
      omega
    simp [← repr_decDigits (m + 1) hb]

theorem decDigits_length (k : Nat) : ∀ n, (decDigits k n).length ≤ k := by
  induction k with
  | zero => intro n; simp [decDigits]
  | succ k ih =>
    intro n
    rw [decDigits]
    split
    · simp
    · have := ih (n / 10)
      simp only [List.length_append, List.length_singleton]
      omega

theorem formatInt_length (v : Int) : (formatInt v).length ≤ 11 := by
  unfold formatInt
  split
  · have := decDigits_length 10 (-v).toNat
    simp only [List.length_cons]
    omega
  · have := decDigits_length 10 v.toNat
    omega


theorem range_four : List.range 4 = [0, 1, 2, 3] := by decide

theorem codeChars_lt (code : Int) (i : Nat) : codeChars code i < 256 :=
  Nat.mod_lt _ (by norm_num)

theorem isprint_charValue (c : Nat) (hc : c < 256) :
    isprint (charValue c) = true ↔ 32 ≤ c ∧ c ≤ 126 := by
  simp only [isprint, charValue, decide_eq_true_eq]
  split <;> omega

theorem isPrintable_iff (code : Int) :
    IsPrintableFourCharCode code = true ↔
      ∀ i, i < 4 → 32 ≤ codeChars code i ∧ codeChars code i ≤ 126 := by
  simp only [IsPrintableFourCharCode, range_four, List.all_cons, List.all_nil, Bool.and_true,
    Bool.and_eq_true, isprint_charValue _ (codeChars_lt code _)]
  constructor
  · rintro ⟨h0, h1, h2, h3⟩ i hi
    interval_cases i <;> assumption
  · intro h
    exact ⟨h 0 (by omega), h 1 (by omega), h 2 (by omega), h 3 (by omega)⟩

theorem FourCharCodeToString_printable (code : Int) (h0 : code ≠ 0)
    (hp : IsPrintableFourCharCode code = true) :
    FourCharCodeToString true code = some ⟨7, quotedTag code⟩ := by
  have hb := (isPrintable_iff code).1 hp
  have c0 := hb 0 (by omega)
  have c1 := hb 1 (by omega)
  have c2 := hb 2 (by omega)
  have c3 := hb 3 (by omega)
  have l0 := codeChars_lt code 0
  have l1 := codeChars_lt code 1
  have l2 := codeChars_lt code 2
  have l3 := codeChars_lt code 3
  have n0 : codeChars code 0 % 256 ≠ 0 := by omega
  have n1 : codeChars code 1 % 256 ≠ 0 := by omega
  have n2 : codeChars code 2 % 256 ≠ 0 := by omega
  have n3 : codeChars code 3 % 256 ≠ 0 := by omega
  have hp2 : (List.range 4).all (fun i => isprint (charValue (codeChars code i))) = true := hp
  unfold FourCharCodeToString
  rw [if_neg (by simpa [noErr] using h0)]
  simp only [hp2, if_true]
  simp [range_four, formatStr, List.takeWhile_cons, n0, n1, n2, n3, snprintf, quotedTag]

theorem FourCharCodeToString_decimal (code : Int) (h0 : code ≠ 0)
    (hp : IsPrintableFourCharCode code = false) :
    FourCharCodeToString true code = some ⟨12, formatInt code⟩ := by
  have hp2 : (List.range 4).all (fun i => isprint (charValue (codeChars code i))) = false := hp
  unfold FourCharCodeToString
  rw [if_neg (by simpa [noErr] using h0)]
  simp only [hp2, if_true, snprintf]
  have := formatInt_length code
  simp only [Bool.false_eq_true, if_false]
  rw [List.take_of_length_le (by omega)]

theorem decDigits_ne_quote (k : Nat) : ∀ n, ∀ x ∈ decDigits k n, x ≠ 39 := by
  induction k with
  | zero => intro n x hx; simp [decDigits] at hx
  | succ k ih =>
    intro n x hx
    rw [decDigits] at hx
    split at hx
    · simp at hx; omega
    · simp only [List.mem_append, List.mem_singleton] at hx
      rcases hx with hx | hx
      · exact ih _ x hx
      · omega

theorem formatInt_ne_quote (v : Int) : ∀ x ∈ formatInt v, x ≠ 39 := by
  intro x hx
  unfold formatInt at hx
  split at hx
  · simp only [List.mem_cons] at hx
    rcases hx with hx | hx
    · omega
    · exact decDigits_ne_quote _ _ x hx
  · exact decDigits_ne_quote _ _ x hx

/-! ## The codec: claims -/

/-- C1: round trip. For every string `s` of exactly four printable ASCII bytes
(each in `0x20 ..= 0x7E`), decoding the code packed from `s` gives the
six-character text made of a quote, the four bytes of `s` in order and a quote
(stored in the 7-byte buffer the decoder allocates for it). -/
theorem C1_round_trip (s : List Nat) (hlen : s.length = 4)
    (hs : ∀ b ∈ s, 32 ≤ b ∧ b ≤ 126) :
    FourCharCodeToString true (StringToFourCharCode (some s)) = some ⟨7, [39] ++ s ++ [39]⟩ := by
  obtain ⟨b0, b1, b2, b3, rfl⟩ : ∃ b0 b1 b2 b3, s = [b0, b1, b2, b3] := by
    match s, hlen with
    | [b0, b1, b2, b3], _ => exact ⟨b0, b1, b2, b3, rfl⟩
  have h0 := hs b0 (by simp)
  have h1 := hs b1 (by simp)
  have h2 := hs b2 (by simp)
  have h3 := hs b3 (by simp)
  rw [StringToFourCharCode_pack b0 b1 b2 b3 (by omega) (by omega) (by omega) (by omega)]
  obtain ⟨e0, e1, e2, e3⟩ :=
    codeChars_pack b0 b1 b2 b3 (by omega) (by omega) (by omega) (by omega)
  have hne : toOSStatus (b0 * 16777216 + b1 * 65536 + b2 * 256 + b3) ≠ 0 := by
    unfold toOSStatus
    split <;> omega
  have hp : IsPrintableFourCharCode
      (toOSStatus (b0 * 16777216 + b1 * 65536 + b2 * 256 + b3)) = true := by
    rw [isPrintable_iff]
    intro i hi
    interval_cases i
    · rw [e0]; exact h0
    · rw [e1]; exact h1
    · rw [e2]; exact h2
    · rw [e3]; exact h3
  rw [FourCharCodeToString_printable _ hne hp]
  simp [quotedTag, e0, e1, e2, e3]

/-- Witness of C1 at the string "fmt ". -/
theorem C1_round_trip_witness :
    FourCharCodeToString true (StringToFourCharCode (some [102, 109, 116, 32]))
      = some ⟨7, [39] ++ [102, 109, 116, 32] ++ [39]⟩ :=
  C1_round_trip [102, 109, 116, 32] (by decide) (by decide)

/-- C2: for every input whose length is not 4 (the empty string and a `NULL`
argument included), `StringToFourCharCode` returns the invalid-input status
`kAudioFileUnsupportedDataFormatError`, whatever the bytes of the input. -/
theorem C2_wrong_length (string : Option (List Nat))
    (h : ∀ s, string = some s → strlen s ≠ 4) :
    StringToFourCharCode string = kAudioFileUnsupportedDataFormatError := by
  cases string with
  | none => rfl
  | some s =>
    have hs := h s rfl
    simp [StringToFourCharCode, hs]

/-- Witness of C2 at `NULL`, at the empty string and at a five-byte string. -/
theorem C2_wrong_length_witness :
    StringToFourCharCode none = kAudioFileUnsupportedDataFormatError ∧
    StringToFourCharCode (some []) = kAudioFileUnsupportedDataFormatError ∧
    StringToFourCharCode (some [97, 98, 99, 100, 101]) = kAudioFileUnsupportedDataFormatError :=
  ⟨C2_wrong_length none (by intro s hs; cases hs),
   C2_wrong_length (some []) (by intro s hs; cases hs; decide),
   C2_wrong_length (some [97, 98, 99, 100, 101]) (by intro s hs; cases hs; decide)⟩

/-- C3, the code at the failing input: on the four-byte string `41 80 41 41` the
sign extension of the second `char` overwrites the first byte, and the code
returns `0xFF804141` as a signed status instead of the packed `0x41804141`. -/
theorem C3_sign_extension :
    strlen [0x41, 0x80, 0x41, 0x41] = 4 ∧
    StringToFourCharCode (some [0x41, 0x80, 0x41, 0x41]) = toOSStatus 0xFF804141 ∧
    StringToFourCharCode (some [0x41, 0x80, 0x41, 0x41])
      ≠ toOSStatus (0x41 * 2 ^ 24 + 0x80 * 2 ^ 16 + 0x41 * 2 ^ 8 + 0x41) := by
  decide

/-- C4 as stated fails at `v = 0`: the four bytes of `0` are not printable, and
the decoder answers "noErr", not the decimal string "0". -/
theorem C4_counterexample :
    IsOSStatus 0 ∧ (¬ ∀ i, i < 4 → 32 ≤ codeChars 0 i ∧ codeChars 0 i ≤ 126) ∧
    decimalString 0 = [48] ∧
    (FourCharCodeToString true 0).map CString.text = some noErrText ∧
    (FourCharCodeToString true 0).map CString.text ≠ some (decimalString 0) := by
  decide

/-- C4, amended: for every 32-bit status `v` other than `0` whose four big-endian
bytes are not all printable ASCII, `FourCharCodeToString v` is the signed
decimal string of `v`, whole, in a 12-byte buffer; for `v = 0` it is "noErr". -/
theorem C4_decimal (v : Int) (hv : IsOSStatus v)
    (hbytes : ¬ ∀ i, i < 4 → 32 ≤ codeChars v i ∧ codeChars v i ≤ 126) :
    (v ≠ 0 → FourCharCodeToString true v = some ⟨12, decimalString v⟩) ∧
    (v = 0 → FourCharCodeToString true v = some ⟨8, noErrText⟩) := by
  have hp : IsPrintableFourCharCode v = false := by
    rw [← Bool.not_eq_true, isPrintable_iff]
    exact hbytes
  constructor
  · intro h0
    rw [FourCharCodeToString_decimal v h0 hp, decimalString, formatInt_eq_repr v hv]
  · intro h0
    subst h0
    rfl

/-- Witness of C4 at the most negative status. -/
theorem C4_decimal_witness :
    (-2147483648 ≠ (0 : Int) →
      FourCharCodeToString true (-2147483648) = some ⟨12, decimalString (-2147483648)⟩) ∧
    ((-2147483648 : Int) = 0 →
      FourCharCodeToString true (-2147483648) = some ⟨8, noErrText⟩) :=
  C4_decimal (-2147483648) (by decide) (by decide)

/-- C5: for every 32-bit status `v`, `IsPrintableFourCharCode v` is true if and
only if the text of `FourCharCodeToString v` is the quoted tag (a quote, the
four big-endian bytes of `v`, a quote); when it is false the text is "noErr"
(for `v = 0`) or the decimal string of `v`. -/
theorem C5_printable_iff_quoted (v : Int) (hv : IsOSStatus v) :
    (IsPrintableFourCharCode v = true ↔
      (FourCharCodeToString true v).map CString.text = some (quotedTag v)) ∧
    (IsPrintableFourCharCode v = false →
      (FourCharCodeToString true v).map CString.text
        = some (if v = 0 then noErrText else decimalString v)) := by
  have hdec : IsPrintableFourCharCode v = false →
      (FourCharCodeToString true v).map CString.text
        = some (if v = 0 then noErrText else decimalString v) := by
    intro hp
    by_cases h0 : v = 0
    · subst h0; rfl
    · rw [FourCharCodeToString_decimal v h0 hp, if_neg h0, decimalString,
        formatInt_eq_repr v hv]
      rfl
  refine ⟨⟨?_, ?_⟩, hdec⟩
  · intro hp
    have h0 : v ≠ 0 := by
      rintro rfl
      revert hp
      decide
    rw [FourCharCodeToString_printable v h0 hp]
    rfl
  · intro hq
    by_contra hp
    have hp : IsPrintableFourCharCode v = false := by simpa using hp
    rw [hdec hp] at hq
    by_cases h0 : v = 0
    · rw [if_pos h0] at hq
      simp [noErrText, quotedTag] at hq
    · rw [if_neg h0, decimalString, ← formatInt_eq_repr v hv] at hq
      have hmem : (39 : Nat) ∈ formatInt v := by
        rw [Option.some.inj hq]
        simp [quotedTag]
      exact formatInt_ne_quote v 39 hmem rfl

/-- Witness of C5 at the code `'fmt?'`. -/
theorem C5_printable_iff_quoted_witness :
    (IsPrintableFourCharCode 0x666D743F = true ↔
      (FourCharCodeToString true 0x666D743F).map CString.text = some (quotedTag 0x666D743F)) ∧
    (IsPrintableFourCharCode 0x666D743F = false →
      (FourCharCodeToString true 0x666D743F).map CString.text
        = some (if (0x666D743F : Int) = 0 then noErrText else decimalString 0x666D743F)) :=
  C5_printable_iff_quoted 0x666D743F (by decide)

/-! ## The reporter and the property accessor: auxiliary facts -/

theorem handlerAfter_append (ops : List HandlerOp) (op : HandlerOp) :
    handlerAfter (ops ++ [op]) = op.apply (handlerAfter ops) := by
  simp [handlerAfter, List.foldl_append]

theorem CheckErrorWithFile_isHandler (g : Nat) (error : Int) (operation file : String)
    (line : Nat) : ∀ e ∈ CheckErrorWithFile g error operation file line, e.isHandler = true := by
  intro e he
  unfold CheckErrorWithFile at he
  split at he
  · simp at he
  · split at he
    · simp only [List.mem_singleton] at he; subst he; rfl
    · simp only [StandardErrorHandler, List.mem_singleton] at he; subst he; rfl

theorem isFetch_of_isHandler (e : Event) (h : e.isHandler = true) : e.isFetch = false := by
  cases e <;> simp_all [Event.isHandler, Event.isFetch]

/-- The three shapes of a run of `GetAudioFileProperty`: an argument is `NULL`
and nothing is called; the probe fails and only the probe is called; the
probe succeeds and the fetch follows it, then at most handler calls. -/
theorem GetAudioFileProperty_shape {σ : Type} (tb : AudioToolbox σ) (g : Nat) (w : σ)
    (audioFile propertyID : Nat) (ioDataSize : Option Nat)
    (outPropertyData : Option (List Nat)) :
    ((GetAudioFileProperty tb g w audioFile propertyID ioDataSize outPropertyData).trace = [] ∧
      (audioFile = 0 ∨ ioDataSize = none ∨ outPropertyData = none)) ∨
    (∃ s, s ≠ noErr ∧
      s = (tb.AudioFileGetPropertyInfo w audioFile propertyID 0 none).1.status ∧
      (GetAudioFileProperty tb g w audioFile propertyID ioDataSize outPropertyData).trace
        = [Event.propertyInfo audioFile propertyID s] ∧
      (GetAudioFileProperty tb g w audioFile propertyID ioDataSize outPropertyData).status
        = kAudioFileUnsupportedPropertyError ∧
      (GetAudioFileProperty tb g w audioFile propertyID ioDataSize outPropertyData).ioDataSize
        = ioDataSize ∧
      (GetAudioFileProperty tb g w audioFile propertyID ioDataSize outPropertyData).outPropertyData
        = outPropertyData) ∨
    (∃ n s report,
      (tb.AudioFileGetPropertyInfo w audioFile propertyID 0 none).1.status = noErr ∧
      (GetAudioFileProperty tb g w audioFile propertyID ioDataSize outPropertyData).trace
        = Event.propertyInfo audioFile propertyID noErr ::
            Event.getProperty audioFile propertyID n s :: report ∧
      ∀ e ∈ report, e.isHandler = true) := by
  unfold GetAudioFileProperty
  cases ioDataSize with
  | none => exact Or.inl ⟨rfl, Or.inr (Or.inl rfl)⟩
  | some size =>
    cases outPropertyData with
    | none => exact Or.inl ⟨rfl, Or.inr (Or.inr rfl)⟩
    | some data =>
      by_cases hf : audioFile = 0
      · exact Or.inl ⟨by simp [hf], Or.inl hf⟩
      · by_cases hs : (tb.AudioFileGetPropertyInfo w audioFile propertyID 0 none).1.status = noErr
        · refine Or.inr (Or.inr ⟨size,
            (tb.AudioFileGetProperty (tb.AudioFileGetPropertyInfo w audioFile propertyID 0
              none).2 audioFile propertyID size data).1.status,
            (if (tb.AudioFileGetProperty (tb.AudioFileGetPropertyInfo w audioFile propertyID 0
                none).2 audioFile propertyID size data).1.status ≠ noErr then
              CheckErrorWithFile g (tb.AudioFileGetProperty (tb.AudioFileGetPropertyInfo w
                audioFile propertyID 0 none).2 audioFile propertyID size data).1.status
                "AudioFileGetProperty" sourceFile 24
             else []), hs, ?_, ?_⟩)
          · simp [hf, IsPropertySupported, hs]
          · intro e he
            split at he
            · exact CheckErrorWithFile_isHandler _ _ _ _ _ e he
            · simp at he
        · refine Or.inr (Or.inl ⟨_, hs, rfl, ?_⟩)
          simp [hf, IsPropertySupported, hs]

/-! ## The reporter and the property accessor: claims -/

/-- C6: dispatch of the reporter over the handler state. Whatever handler calls
came before, `CheckErrorWithFile` invokes no handler when the status is `0`;
when it is not, it invokes exactly one handler, once, with exactly (status,
operation, file, line): the handler `h` of the last call when that call is
`SetCustomErrorHandler(h)`, and the default formatter when the last call is
`ResetErrorHandler` or when no call was made. -/
theorem C6_dispatch (ops : List HandlerOp) (error : Int) (operation file : String)
    (line : Nat) :
    (error = 0 → CheckErrorWithFile (handlerAfter ops) error operation file line = []) ∧
    (error ≠ 0 → ∀ pre h, h ≠ 0 → ops = pre ++ [HandlerOp.install h] →
      CheckErrorWithFile (handlerAfter ops) error operation file line
        = [Event.customHandler h error operation file line]) ∧
    (error ≠ 0 → (ops = [] ∨ ∃ pre, ops = pre ++ [HandlerOp.reset]) →
      CheckErrorWithFile (handlerAfter ops) error operation file line
        = [Event.standardHandler error operation file line]) := by
  refine ⟨?_, ?_, ?_⟩
  · intro h0
    simp [CheckErrorWithFile, noErr, h0]
  · intro h0 pre h hh hops
    subst hops
    rw [handlerAfter_append]
    simp [CheckErrorWithFile, noErr, h0, HandlerOp.apply, SetCustomErrorHandler, hh]
  · intro h0 hops
    have hg : handlerAfter ops = 0 := by
      rcases hops with rfl | ⟨pre, rfl⟩
      · rfl
      · rw [handlerAfter_append]; rfl
    simp [CheckErrorWithFile, noErr, h0, hg, StandardErrorHandler]

/-- Witness of C6: after install 7, reset, install 9 a report of `-50` reaches
handler 9 once. -/
theorem C6_dispatch_witness :
    CheckErrorWithFile
        (handlerAfter [HandlerOp.install 7, HandlerOp.reset, HandlerOp.install 9])
        (-50) "opName" "main.c" 12
      = [Event.customHandler 9 (-50) "opName" "main.c" 12] :=
  (C6_dispatch [HandlerOp.install 7, HandlerOp.reset, HandlerOp.install 9] (-50) "opName"
    "main.c" 12).2.1 (by decide) [HandlerOp.install 7, HandlerOp.reset] 9 (by decide) rfl

/-- C7: probe before fetch. In every run of `GetAudioFileProperty`, a call of the
foreign fetch is for the handle and id of the request and comes after a probe of
that handle and id that returned success. If the probe reports the id
unsupported (any status other than `noErr`), the function returns
`kAudioFileUnsupportedPropertyError`, the trace holds no fetch, and buffer and
`ioDataSize` are as they were. -/
theorem C7_probe_before_fetch {σ : Type} (tb : AudioToolbox σ) (g : Nat) (w : σ)
    (audioFile propertyID : Nat) (ioDataSize : Option Nat)
    (outPropertyData : Option (List Nat)) :
    (∀ pre post a p n s,
      (GetAudioFileProperty tb g w audioFile propertyID ioDataSize outPropertyData).trace
        = pre ++ Event.getProperty a p n s :: post →
      a = audioFile ∧ p = propertyID ∧ Event.propertyInfo audioFile propertyID noErr ∈ pre) ∧
    (∀ s, s ≠ noErr →
      Event.propertyInfo audioFile propertyID s ∈
        (GetAudioFileProperty tb g w audioFile propertyID ioDataSize outPropertyData).trace →
      (GetAudioFileProperty tb g w audioFile propertyID ioDataSize outPropertyData).status
        = kAudioFileUnsupportedPropertyError ∧
      (∀ e ∈ (GetAudioFileProperty tb g w audioFile propertyID ioDataSize
        outPropertyData).trace, e.isFetch = false) ∧
      (GetAudioFileProperty tb g w audioFile propertyID ioDataSize outPropertyData).ioDataSize
        = ioDataSize ∧
      (GetAudioFileProperty tb g w audioFile propertyID ioDataSize outPropertyData).outPropertyData
        = outPropertyData) ∧
    (audioFile ≠ 0 → ioDataSize ≠ none → outPropertyData ≠ none →
      (tb.AudioFileGetPropertyInfo w audioFile propertyID 0 none).1.status ≠ noErr →
      Event.propertyInfo audioFile propertyID
          (tb.AudioFileGetPropertyInfo w audioFile propertyID 0 none).1.status ∈
        (GetAudioFileProperty tb g w audioFile propertyID ioDataSize outPropertyData).trace) := by
  rcases GetAudioFileProperty_shape tb g w audioFile propertyID ioDataSize outPropertyData with
    ⟨ht, hnull⟩ | ⟨s0, hs0, hs0', ht, hst, hio, hbuf⟩ | ⟨n0, s0, report, hok, ht, hrep⟩
  · refine ⟨?_, ?_, ?_⟩
    · intro pre post a p n s h
      rw [ht] at h
      simp at h
    · intro s _ hmem
      rw [ht] at hmem
      simp at hmem
    · intro h1 h2 h3
      rcases hnull with h | h | h <;> contradiction
  · refine ⟨?_, ?_, ?_⟩
    · intro pre post a p n s h
      rw [ht] at h
      have hmem : Event.getProperty a p n s ∈ [Event.propertyInfo audioFile propertyID s0] := by
        rw [h]; simp
      simp at hmem
    · intro s _ _
      refine ⟨hst, ?_, hio, hbuf⟩
      intro e he
      rw [ht] at he
      simp only [List.mem_singleton] at he
      subst he
      rfl
    · intro _ _ _ _
      rw [ht, ← hs0']
      simp
  · refine ⟨?_, ?_, ?_⟩
    · intro pre post a p n s h
      rw [ht] at h
      cases pre with
      | nil => simp at h
      | cons x pre =>
        simp only [List.cons_append, List.cons.injEq] at h
        obtain ⟨hx, h⟩ := h
        have hmem : Event.getProperty a p n s ∈
            Event.getProperty audioFile propertyID n0 s0 :: report := by
          rw [h]; simp
        simp only [List.mem_cons] at hmem
        rcases hmem with hmem | hmem
        · simp only [Event.getProperty.injEq] at hmem
          exact ⟨hmem.1, hmem.2.1, by rw [← hx]; simp⟩
        · have := hrep _ hmem
          simp [Event.isHandler] at this
    · intro s hs hmem
      rw [ht] at hmem
      simp only [List.mem_cons, Event.propertyInfo.injEq, true_and] at hmem
      rcases hmem with hmem | hmem | hmem
      · exact absurd hmem hs
      · cases hmem
      · have := hrep _ hmem
        simp [Event.isHandler] at this
    · intro _ _ _ hbad
      exact absurd hok hbad

/-- Witness of C7: on the test file, a request for the unknown id 5 stops at
the probe. -/
theorem C7_probe_before_fetch_witness :
    (GetAudioFileProperty fmtFile 0 () 1 5 (some 8) (some [0, 0, 0, 0, 0, 0, 0, 0])).status
      = kAudioFileUnsupportedPropertyError ∧
    (∀ e ∈ (GetAudioFileProperty fmtFile 0 () 1 5 (some 8)
      (some [0, 0, 0, 0, 0, 0, 0, 0])).trace, e.isFetch = false) ∧
    (GetAudioFileProperty fmtFile 0 () 1 5 (some 8) (some [0, 0, 0, 0, 0, 0, 0, 0])).ioDataSize
      = some 8 ∧
    (GetAudioFileProperty fmtFile 0 () 1 5 (some 8)
      (some [0, 0, 0, 0, 0, 0, 0, 0])).outPropertyData = some [0, 0, 0, 0, 0, 0, 0, 0] :=
  (C7_probe_before_fetch fmtFile 0 () 1 5 (some 8) (some [0, 0, 0, 0, 0, 0, 0, 0])).2.1
    kAudioFileUnsupportedPropertyError (by decide) (by decide)

/-- C8: diagnostics never suppress propagation. For a non-null handle, buffer and
`ioDataSize` and an id the probe accepts, `GetAudioFileProperty` returns exactly
the status `e` of the foreign fetch. If `e` is not `0` the active handler (the
installed one, or the default one when none is installed) is invoked exactly
once, with status `e` and operation "AudioFileGetProperty"; if `e` is `0` the
function returns `0` and no handler is invoked. -/
theorem C8_failure_propagates {σ : Type} (tb : AudioToolbox σ) (g : Nat) (w : σ)
    (audioFile propertyID size : Nat) (data : List Nat) (hfile : audioFile ≠ 0)
    (hsup : (tb.AudioFileGetPropertyInfo w audioFile propertyID 0 none).1.status = noErr) :
    (GetAudioFileProperty tb g w audioFile propertyID (some size) (some data)).status
      = (tb.AudioFileGetProperty (tb.AudioFileGetPropertyInfo w audioFile propertyID 0 none).2
          audioFile propertyID size data).1.status ∧
    ((tb.AudioFileGetProperty (tb.AudioFileGetPropertyInfo w audioFile propertyID 0 none).2
        audioFile propertyID size data).1.status ≠ 0 →
      (g ≠ 0 →
        (GetAudioFileProperty tb g w audioFile propertyID (some size) (some data)).trace.filter
            Event.isHandler
          = [Event.customHandler g
              (tb.AudioFileGetProperty (tb.AudioFileGetPropertyInfo w audioFile propertyID 0
                none).2 audioFile propertyID size data).1.status
              "AudioFileGetProperty" sourceFile 24]) ∧
      (g = 0 →
        (GetAudioFileProperty tb g w audioFile propertyID (some size) (some data)).trace.filter
            Event.isHandler
          = [Event.standardHandler
              (tb.AudioFileGetProperty (tb.AudioFileGetPropertyInfo w audioFile propertyID 0
                none).2 audioFile propertyID size data).1.status
              "AudioFileGetProperty" sourceFile 24])) ∧
    ((tb.AudioFileGetProperty (tb.AudioFileGetPropertyInfo w audioFile propertyID 0 none).2
        audioFile propertyID size data).1.status = 0 →
      (GetAudioFileProperty tb g w audioFile propertyID (some size) (some data)).status = 0 ∧
      (GetAudioFileProperty tb g w audioFile propertyID (some size) (some data)).trace.filter
          Event.isHandler = []) := by
  refine ⟨?_, ?_, ?_⟩
  · simp [GetAudioFileProperty, IsPropertySupported, hfile, hsup]
  · intro he
    constructor
    · intro hg
      simp [GetAudioFileProperty, IsPropertySupported, hfile, hsup, CheckErrorWithFile, noErr,
        he, hg, Event.isHandler]
    · intro hg
      simp [GetAudioFileProperty, IsPropertySupported, hfile, hsup, CheckErrorWithFile, noErr,
        he, hg, Event.isHandler, StandardErrorHandler]
  · intro he
    simp [GetAudioFileProperty, IsPropertySupported, hfile, hsup, noErr, he, Event.isHandler]

/-- Witness of C8: on the file whose fetch fails with `-38`, with handler 7
installed, the caller receives `-38` and handler 7 is invoked once. -/
theorem C8_failure_propagates_witness :
    (GetAudioFileProperty brokenFile 7 () 1 fmtProperty (some 8)
      (some [0, 0, 0, 0, 0, 0, 0, 0])).status = -38 ∧
    (GetAudioFileProperty brokenFile 7 () 1 fmtProperty (some 8)
      (some [0, 0, 0, 0, 0, 0, 0, 0])).trace.filter Event.isHandler
      = [Event.customHandler 7 (-38) "AudioFileGetProperty" sourceFile 24] :=
  ⟨(C8_failure_propagates brokenFile 7 () 1 fmtProperty 8 [0, 0, 0, 0, 0, 0, 0, 0]
      (by decide) (by decide)).1,
   ((C8_failure_propagates brokenFile 7 () 1 fmtProperty 8 [0, 0, 0, 0, 0, 0, 0, 0]
      (by decide) (by decide)).2.1 (by decide)).1 (by decide)⟩

/-- C9: for a non-null handle and an id that the foreign probe reports as unknown
(it answers `kAudioFileUnsupportedPropertyError`), `GetAudioFilePropertyInfo`
returns `kAudioFileUnsupportedPropertyError`, and its trace holds the probe and
no call of the foreign fetch `AudioFileGetProperty`. -/
theorem C9_unknown_id {σ : Type} (tb : AudioToolbox σ) (g : Nat) (w : σ)
    (audioFile propertyID size : Nat) (isWritable : Option Nat) (hfile : audioFile ≠ 0)
    (hunknown : (tb.AudioFileGetPropertyInfo w audioFile propertyID size isWritable).1.status
      = kAudioFileUnsupportedPropertyError) :
    (GetAudioFilePropertyInfo tb g w audioFile propertyID (some size) isWritable).status
      = kAudioFileUnsupportedPropertyError ∧
    Event.propertyInfo audioFile propertyID kAudioFileUnsupportedPropertyError ∈
      (GetAudioFilePropertyInfo tb g w audioFile propertyID (some size) isWritable).trace ∧
    ∀ e ∈ (GetAudioFilePropertyInfo tb g w audioFile propertyID (some size) isWritable).trace,
      e.isFetch = false := by
  have hne : kAudioFileUnsupportedPropertyError ≠ noErr := by decide
  refine ⟨?_, ?_, ?_⟩
  · simp [GetAudioFilePropertyInfo, hfile, hunknown]
  · simp [GetAudioFilePropertyInfo, hfile, hunknown]
  · intro e he
    simp only [GetAudioFilePropertyInfo, hfile, if_false, hunknown, ne_eq, hne,
      not_false_eq_true, if_true, List.singleton_append, List.mem_cons] at he
    rcases he with he | he
    · subst he; rfl
    · exact isFetch_of_isHandler e (CheckErrorWithFile_isHandler _ _ _ _ _ e he)

/-- Witness of C9: the test file does not know id 5. -/
theorem C9_unknown_id_witness :
    (GetAudioFilePropertyInfo fmtFile 0 () 1 5 (some 0) (some 0)).status
      = kAudioFileUnsupportedPropertyError ∧
    Event.propertyInfo 1 5 kAudioFileUnsupportedPropertyError ∈
      (GetAudioFilePropertyInfo fmtFile 0 () 1 5 (some 0) (some 0)).trace ∧
    ∀ e ∈ (GetAudioFilePropertyInfo fmtFile 0 () 1 5 (some 0) (some 0)).trace,
      e.isFetch = false :=
  C9_unknown_id fmtFile 0 () 1 5 0 (some 0) (by decide) (by decide)

/-- C10: metadata pass-through. For a non-null handle and an id for which the
foreign probe reports success with a size and a writable flag,
`GetAudioFilePropertyInfo` returns success and outputs exactly that size and
that flag, without calling a handler or the fetch. In particular, when the id
is `'fmt '`, reported with size 8 and writable `0`, the outputs are `(8, 0)`,
and a following `GetAudioFileProperty` into an 8-byte buffer with `ioDataSize`
8, on a file that again accepts the id and whose fetch succeeds leaving size 8,
returns success with `ioDataSize` still 8. -/
theorem C10_metadata_pass_through {σ : Type} (tb : AudioToolbox σ) (g : Nat) (w w1 : σ)
    (audioFile propertyID size0 writable0 size flag : Nat) (hfile : audioFile ≠ 0)
    (hprobe : tb.AudioFileGetPropertyInfo w audioFile propertyID size0 (some writable0)
      = (⟨noErr, size, flag⟩, w1)) :
    ((GetAudioFilePropertyInfo tb g w audioFile propertyID (some size0) (some writable0)).status
        = noErr ∧
      (GetAudioFilePropertyInfo tb g w audioFile propertyID (some size0)
        (some writable0)).outDataSize = some size ∧
      (GetAudioFilePropertyInfo tb g w audioFile propertyID (some size0)
        (some writable0)).isWritable = some flag ∧
      (GetAudioFilePropertyInfo tb g w audioFile propertyID (some size0) (some writable0)).trace
        = [Event.propertyInfo audioFile propertyID noErr]) ∧
    (propertyID = fmtProperty → size = 8 → flag = 0 →
      ((GetAudioFilePropertyInfo tb g w audioFile propertyID (some size0)
          (some writable0)).outDataSize,
        (GetAudioFilePropertyInfo tb g w audioFile propertyID (some size0)
          (some writable0)).isWritable) = (some 8, some 0) ∧
      ∀ buffer : List Nat, buffer.length = 8 →
        (tb.AudioFileGetPropertyInfo w1 audioFile propertyID 0 none).1.status = noErr →
        (tb.AudioFileGetProperty (tb.AudioFileGetPropertyInfo w1 audioFile propertyID 0 none).2
          audioFile propertyID 8 buffer).1.status = noErr →
        (tb.AudioFileGetProperty (tb.AudioFileGetPropertyInfo w1 audioFile propertyID 0 none).2
          audioFile propertyID 8 buffer).1.dataSize = 8 →
        (GetAudioFileProperty tb g
          (GetAudioFilePropertyInfo tb g w audioFile propertyID (some size0)
            (some writable0)).world audioFile propertyID (some 8) (some buffer)).status = noErr ∧
        (GetAudioFileProperty tb g
          (GetAudioFilePropertyInfo tb g w audioFile propertyID (some size0)
            (some writable0)).world audioFile propertyID (some 8) (some buffer)).ioDataSize
          = some 8) := by
  have hinfo : (GetAudioFilePropertyInfo tb g w audioFile propertyID (some size0)
      (some writable0)).world = w1 := by
    simp [GetAudioFilePropertyInfo, hfile, hprobe]
  refine ⟨⟨?_, ?_, ?_, ?_⟩, ?_⟩
  · simp [GetAudioFilePropertyInfo, hfile, hprobe]
  · simp [GetAudioFilePropertyInfo, hfile, hprobe]
  · simp [GetAudioFilePropertyInfo, hfile, hprobe]
  · simp [GetAudioFilePropertyInfo, hfile, hprobe]
  · intro _ hsize hflag
    refine ⟨?_, ?_⟩
    · simp [GetAudioFilePropertyInfo, hfile, hprobe, hsize, hflag]
    · intro buffer _ hsup hfetch hleft
      rw [hinfo]
      constructor
      · simp [GetAudioFileProperty, IsPropertySupported, hfile, hsup, hfetch]
      · simp [GetAudioFileProperty, IsPropertySupported, hfile, hsup, hleft]

/-- Witness of C10: the end-to-end run on the test file, whose `'fmt '` property
has size 8 and is not writable. -/
theorem C10_metadata_pass_through_witness :
    ((GetAudioFilePropertyInfo fmtFile 0 () 1 fmtProperty (some 0) (some 1)).outDataSize,
      (GetAudioFilePropertyInfo fmtFile 0 () 1 fmtProperty (some 0) (some 1)).isWritable)
      = (some 8, some 0) ∧
    (GetAudioFileProperty fmtFile 0
      (GetAudioFilePropertyInfo fmtFile 0 () 1 fmtProperty (some 0) (some 1)).world 1 fmtProperty
      (some 8) (some [0, 0, 0, 0, 0, 0, 0, 0])).status = noErr ∧
    (GetAudioFileProperty fmtFile 0
      (GetAudioFilePropertyInfo fmtFile 0 () 1 fmtProperty (some 0) (some 1)).world 1 fmtProperty
      (some 8) (some [0, 0, 0, 0, 0, 0, 0, 0])).ioDataSize = some 8 :=
  have h := (C10_metadata_pass_through fmtFile 0 () () 1 fmtProperty 0 1 8 0 (by decide)
    (by decide)).2 rfl rfl rfl
  ⟨h.1, h.2 [0, 0, 0, 0, 0, 0, 0, 0] (by decide) (by decide) (by decide) (by decide)⟩

/-! ## The typed getters and the advisory checks: claims -/

theorem GetAudioFileNumberProperty_eq {σ : Type} :
    @GetAudioFileNumberProperty σ = @GetAudioFileStringProperty σ := rfl

theorem GetAudioFileDictionaryProperty_eq {σ : Type} :
    @GetAudioFileDictionaryProperty σ = @GetAudioFileStringProperty σ := rfl

theorem invalidFile_ne_noErr : kAudioFileInvalidFileError ≠ noErr := by decide

theorem unsupportedProperty_ne_noErr : kAudioFileUnsupportedPropertyError ≠ noErr := by decide

theorem GetAudioFileStringProperty_absent {σ : Type} (tb : AudioToolbox σ) (g : Nat) (w : σ)
    (audioFile propertyID slot : Nat) (hfile : audioFile ≠ 0)
    (hok : (tb.AudioFileGetPropertyInfo w audioFile propertyID 0 none).1.status = noErr)
    (hzero : (tb.AudioFileGetPropertyInfo w audioFile propertyID 0 none).1.dataSize = 0) :
    (GetAudioFileStringProperty tb g w audioFile propertyID (some slot)).status = noErr ∧
    (GetAudioFileStringProperty tb g w audioFile propertyID (some slot)).out = some 0 ∧
    ∀ e ∈ (GetAudioFileStringProperty tb g w audioFile propertyID (some slot)).trace,
      e.isFetch = false := by
  simp [GetAudioFileStringProperty, GetAudioFilePropertyInfo, hfile, hok, hzero,
    Event.isFetch]

/-- C11: for each typed getter, a non-null handle and an id whose probe succeeds
with reported size 0, the getter returns success, the output is the explicit
absent value `NULL`, and the foreign fetch is not called. -/
theorem C11_absent_on_size_zero {σ : Type} (tb : AudioToolbox σ) (g : Nat) (w : σ)
    (audioFile propertyID slot : Nat) (hfile : audioFile ≠ 0)
    (hok : (tb.AudioFileGetPropertyInfo w audioFile propertyID 0 none).1.status = noErr)
    (hzero : (tb.AudioFileGetPropertyInfo w audioFile propertyID 0 none).1.dataSize = 0) :
    ((GetAudioFileStringProperty tb g w audioFile propertyID (some slot)).status = noErr ∧
      (GetAudioFileStringProperty tb g w audioFile propertyID (some slot)).out = some 0 ∧
      ∀ e ∈ (GetAudioFileStringProperty tb g w audioFile propertyID (some slot)).trace,
        e.isFetch = false) ∧
    ((GetAudioFileNumberProperty tb g w audioFile propertyID (some slot)).status = noErr ∧
      (GetAudioFileNumberProperty tb g w audioFile propertyID (some slot)).out = some 0 ∧
      ∀ e ∈ (GetAudioFileNumberProperty tb g w audioFile propertyID (some slot)).trace,
        e.isFetch = false) ∧
    ((GetAudioFileDictionaryProperty tb g w audioFile propertyID (some slot)).status = noErr ∧
      (GetAudioFileDictionaryProperty tb g w audioFile propertyID (some slot)).out = some 0 ∧
      ∀ e ∈ (GetAudioFileDictionaryProperty tb g w audioFile propertyID (some slot)).trace,
        e.isFetch = false) := by
  rw [GetAudioFileNumberProperty_eq, GetAudioFileDictionaryProperty_eq]
  have h := GetAudioFileStringProperty_absent tb g w audioFile propertyID slot hfile hok hzero
  exact ⟨h, h, h⟩

/-- Witness of C11: on the file whose properties are empty, a slot holding 77
is set to `NULL` and the getter succeeds. -/
theorem C11_absent_on_size_zero_witness :
    (GetAudioFileStringProperty emptyFile 0 () 1 5 (some 77)).status = noErr ∧
    (GetAudioFileStringProperty emptyFile 0 () 1 5 (some 77)).out = some 0 ∧
    ∀ e ∈ (GetAudioFileStringProperty emptyFile 0 () 1 5 (some 77)).trace,
      e.isFetch = false :=
  (C11_absent_on_size_zero emptyFile 0 () 1 5 77 (by decide) (by decide) (by decide)).1

theorem GetAudioFileProperty_noErr {σ : Type} (tb : AudioToolbox σ) (g : Nat) (w : σ)
    (audioFile propertyID size : Nat) (data : List Nat)
    (h : (GetAudioFileProperty tb g w audioFile propertyID (some size) (some data)).status
      = noErr) :
    audioFile ≠ 0 ∧ (tb.AudioFileGetPropertyInfo w audioFile propertyID 0 none).1.status = noErr ∧
    (tb.AudioFileGetProperty (tb.AudioFileGetPropertyInfo w audioFile propertyID 0 none).2
      audioFile propertyID size data).1.status = noErr := by
  by_cases hf : audioFile = 0
  · simp [GetAudioFileProperty, hf] at h
    exact absurd h invalidFile_ne_noErr
  · by_cases hs : (tb.AudioFileGetPropertyInfo w audioFile propertyID 0 none).1.status = noErr
    · refine ⟨hf, hs, ?_⟩
      simpa [GetAudioFileProperty, IsPropertySupported, hf, hs] using h
    · simp [GetAudioFileProperty, IsPropertySupported, hf, hs] at h
      exact absurd h unsupportedProperty_ne_noErr

/-- Outside the overrun of the local, each typed getter hands the value over only on
success; the overrun is told by `fault`. -/
theorem GetAudioFileStringProperty_contract {σ : Type} (tb : AudioToolbox σ) (g : Nat) (w : σ)
    (audioFile propertyID slot : Nat) :
    HandsOverOnlyOnSuccess GetAudioFileStringProperty tb g w audioFile propertyID slot := by
  unfold HandsOverOnlyOnSuccess
  refine ⟨?_, ?_, ?_, ?_⟩
  · intro hinfo
    simp [GetAudioFileStringProperty, hinfo]
  · intro hinfo hsize hget
    simp [GetAudioFileStringProperty, hinfo, hsize, hget]
  · intro hinfo hsize hget
    obtain ⟨hf, hs, hfetch⟩ := GetAudioFileProperty_noErr tb g _ audioFile propertyID _ _ hget
    refine ⟨?_, ?_, ?_⟩
    · simp [GetAudioFileStringProperty, hinfo, hsize, hget]
    · simp [GetAudioFileStringProperty, hinfo, hsize, hget]
      simp [GetAudioFileProperty, IsPropertySupported, hf, hs]
    · simp only [GetAudioFileStringProperty, hinfo, ne_eq, not_true_eq_false, if_false, hsize,
        List.mem_append]
      right
      simp [GetAudioFileProperty, IsPropertySupported, hf, hs, hfetch]
  · by_cases hinfo :
        (GetAudioFilePropertyInfo tb g w audioFile propertyID (some 0) none).status = noErr
    · by_cases hsize : (GetAudioFilePropertyInfo tb g w audioFile propertyID (some 0)
          none).outDataSize.getD 0 = 0
      · simp [GetAudioFileStringProperty, hinfo, hsize]
      · simp [GetAudioFileStringProperty, hinfo, hsize]
    · simp [GetAudioFileStringProperty, hinfo]

/-- C12, the code at the failing input: on a file whose property has 40 bytes,
each typed getter calls the fetch with capacity 40 on its 8-byte local; the
fetch succeeds and stores 40 bytes, overrunning the local (`fault`), where
the claim has the getter return success with the value in the slot. -/
theorem C12_local_overrun :
    sizeofRef = 8 ∧
    (Event.getProperty 1 dataFormatProperty 40 noErr ∈
        (GetAudioFileStringProperty wideFile 0 () 1 dataFormatProperty (some 77)).trace ∧
      (GetAudioFileStringProperty wideFile 0 () 1 dataFormatProperty (some 77)).fault = true) ∧
    (Event.getProperty 1 dataFormatProperty 40 noErr ∈
        (GetAudioFileNumberProperty wideFile 0 () 1 dataFormatProperty (some 77)).trace ∧
      (GetAudioFileNumberProperty wideFile 0 () 1 dataFormatProperty (some 77)).fault = true) ∧
    (Event.getProperty 1 dataFormatProperty 40 noErr ∈
        (GetAudioFileDictionaryProperty wideFile 0 () 1 dataFormatProperty (some 77)).trace ∧
      (GetAudioFileDictionaryProperty wideFile 0 () 1 dataFormatProperty (some 77)).fault = true) ∧
    (GetAudioFileStringProperty referenceFile 0 () 1 5 (some 77)).out = some 4096 ∧
    (GetAudioFileStringProperty referenceFile 0 () 1 5 (some 77)).fault = false := by
  decide

/-- C13 as stated fails at the null handle: a capability that answers the probe of
any handle with success makes both advisory checks true, while
`GetAudioFilePropertyInfo` rejects the null handle without asking. -/
theorem C13_counterexample :
    (IsPropertySupported lenientFile () 0 5).value = true ∧
    (IsPropertyWritable lenientFile () 0 5).value = true ∧
    (GetAudioFilePropertyInfo lenientFile 0 () 0 5 (some 0) (some 0)).status
      = kAudioFileInvalidFileError ∧
    ¬ ((IsPropertySupported lenientFile () 0 5).value = true ↔
      (GetAudioFilePropertyInfo lenientFile 0 () 0 5 (some 0) none).status = noErr) := by
  decide

/-- C13, amended: for every non-null handle and id, `IsPropertySupported` is true if
and only if `GetAudioFilePropertyInfo` succeeds, and `IsPropertyWritable` is true
if and only if it succeeds with a non-zero writable flag. For every handle, null
included, each check is true exactly when the foreign probe it makes succeeds
(with a non-zero flag for the writable check), so both are false on any error
of that probe, and neither invokes the diagnostic handler; for a null handle
`GetAudioFilePropertyInfo` fails without asking the foreign capability. -/
theorem C13_advisory_views {σ : Type} (tb : AudioToolbox σ) (g : Nat) (w : σ)
    (audioFile propertyID : Nat) :
    (audioFile ≠ 0 →
      ((IsPropertySupported tb w audioFile propertyID).value = true ↔
        (GetAudioFilePropertyInfo tb g w audioFile propertyID (some 0) none).status = noErr) ∧
      ((IsPropertyWritable tb w audioFile propertyID).value = true ↔
        (GetAudioFilePropertyInfo tb g w audioFile propertyID (some 0) (some 0)).status = noErr ∧
        (GetAudioFilePropertyInfo tb g w audioFile propertyID (some 0) (some 0)).isWritable
          ≠ some 0)) ∧
    ((IsPropertySupported tb w audioFile propertyID).value = true ↔
      (tb.AudioFileGetPropertyInfo w audioFile propertyID 0 none).1.status = noErr) ∧
    ((IsPropertyWritable tb w audioFile propertyID).value = true ↔
      (tb.AudioFileGetPropertyInfo w audioFile propertyID 0 (some 0)).1.status = noErr ∧
      (tb.AudioFileGetPropertyInfo w audioFile propertyID 0 (some 0)).1.isWritable ≠ 0) ∧
    (∀ e ∈ (IsPropertySupported tb w audioFile propertyID).trace, e.isHandler = false) ∧
    (∀ e ∈ (IsPropertyWritable tb w audioFile propertyID).trace, e.isHandler = false) ∧
    (audioFile = 0 → ∀ outDataSize isWritable,
      (GetAudioFilePropertyInfo tb g w audioFile propertyID outDataSize isWritable).status
        = kAudioFileInvalidFileError ∧
      (GetAudioFilePropertyInfo tb g w audioFile propertyID outDataSize isWritable).trace
        = []) := by
  refine ⟨?_, ?_, ?_, ?_, ?_, ?_⟩
  · intro hfile
    constructor
    · simp [IsPropertySupported, GetAudioFilePropertyInfo, hfile]
    · simp [IsPropertyWritable, GetAudioFilePropertyInfo, hfile]
  · simp [IsPropertySupported]
  · simp [IsPropertyWritable]
  · intro e he
    simp only [IsPropertySupported, List.mem_singleton] at he
    subst he
    rfl
  · intro e he
    simp only [IsPropertyWritable, List.mem_singleton] at he
    subst he
    rfl
  · intro hfile outDataSize isWritable
    cases outDataSize <;> simp [GetAudioFilePropertyInfo, hfile]

/-- Witness of C13: on the test file and handle 1, `'fmt '` is supported and not
writable, in agreement with `GetAudioFilePropertyInfo`. -/
theorem C13_advisory_views_witness :
    ((IsPropertySupported fmtFile () 1 fmtProperty).value = true ↔
      (GetAudioFilePropertyInfo fmtFile 0 () 1 fmtProperty (some 0) none).status = noErr) ∧
    ((IsPropertyWritable fmtFile () 1 fmtProperty).value = true ↔
      (GetAudioFilePropertyInfo fmtFile 0 () 1 fmtProperty (some 0) (some 0)).status = noErr ∧
      (GetAudioFilePropertyInfo fmtFile 0 () 1 fmtProperty (some 0) (some 0)).isWritable
        ≠ some 0) :=
  (C13_advisory_views fmtFile 0 () 1 fmtProperty).1 (by decide)

/-! ## The scoped property buffer: auxiliary facts -/

theorem live_map_fresh (live : List (Nat × Block)) (n p : Nat) (b : Block)
    (hwf : ∀ e ∈ live, 1 ≤ e.1 ∧ e.1 ≤ n) (hp : n < p) :
    live.map (fun e => if e.1 = p then (p, b) else e) = live := by
  induction live with
  | nil => rfl
  | cons x xs ih =>
    have hx := hwf x (by simp)
    have hne : ¬ x.1 = p := by omega
    simp only [List.map_cons, hne, if_false]
    rw [ih (fun e he => hwf e (by simp [he]))]

theorem live_filter_fresh (live : List (Nat × Block)) (n p : Nat)
    (hwf : ∀ e ∈ live, 1 ≤ e.1 ∧ e.1 ≤ n) (hp : n < p) :
    live.filter (fun e => e.1 != p) = live := by
  rw [List.filter_eq_self]
  intro e he
  have := hwf e he
  simp only [bne_iff_ne, ne_eq]
  omega

theorem live_find_fresh (live : List (Nat × Block)) (n p : Nat)
    (hwf : ∀ e ∈ live, 1 ≤ e.1 ∧ e.1 ≤ n) (hp : n < p) :
    live.find? (fun e => e.1 == p) = none := by
  rw [List.find?_eq_none]
  intro e he
  have := hwf e he
  simp only [beq_iff_eq]
  omega

/-- The run of `CreatePropertyData` in which everything succeeds. -/
theorem CreatePropertyData_success {σ : Type} (tb : AudioToolbox σ) (g : Nat) (w : σ)
    (heap : Heap) (audioFile propertyID : Nat) (hwf : heap.WellFormed)
    (hinfo : (GetAudioFilePropertyInfo tb g w audioFile propertyID (some 0) none).status = noErr)
    (hsize : (GetAudioFilePropertyInfo tb g w audioFile propertyID (some 0)
      none).outDataSize.getD 0 ≠ 0)
    (hget : (GetAudioFileProperty tb g
      (GetAudioFilePropertyInfo tb g w audioFile propertyID (some 0) none).world audioFile
      propertyID
      (some ((GetAudioFilePropertyInfo tb g w audioFile propertyID (some 0)
        none).outDataSize.getD 0))
      (some (List.replicate ((GetAudioFilePropertyInfo tb g w audioFile propertyID (some 0)
        none).outDataSize.getD 0) 0))).status = noErr) :
    (CreatePropertyData tb g w heap true true audioFile propertyID).buffer = heap.next + 1 ∧
    (CreatePropertyData tb g w heap true true audioFile propertyID).heap
      = ⟨heap.next + 2,
        (heap.next + 2, Block.bytes
          ((GetAudioFilePropertyInfo tb g w audioFile propertyID (some 0)
            none).outDataSize.getD 0)
          ((GetAudioFileProperty tb g
            (GetAudioFilePropertyInfo tb g w audioFile propertyID (some 0) none).world audioFile
            propertyID
            (some ((GetAudioFilePropertyInfo tb g w audioFile propertyID (some 0)
              none).outDataSize.getD 0))
            (some (List.replicate ((GetAudioFilePropertyInfo tb g w audioFile propertyID (some 0)
              none).outDataSize.getD 0) 0))).outPropertyData.getD [])) ::
        (heap.next + 1, Block.record ⟨heap.next + 2,
          (GetAudioFileProperty tb g
            (GetAudioFilePropertyInfo tb g w audioFile propertyID (some 0) none).world audioFile
            propertyID
            (some ((GetAudioFilePropertyInfo tb g w audioFile propertyID (some 0)
              none).outDataSize.getD 0))
            (some (List.replicate ((GetAudioFilePropertyInfo tb g w audioFile propertyID (some 0)
              none).outDataSize.getD 0) 0))).ioDataSize.getD
            ((GetAudioFilePropertyInfo tb g w audioFile propertyID (some 0)
              none).outDataSize.getD 0),
          propertyID⟩) :: heap.live,
        heap.freed, heap.fault⟩ := by
  have hm1 := fun b => live_map_fresh heap.live heap.next (heap.next + 1) b hwf (by omega)
  have hm2 := fun b => live_map_fresh heap.live heap.next (heap.next + 1 + 1) b hwf (by omega)
  simp [CreatePropertyData, Heap.malloc, Heap.write, hinfo, hsize, hget, hm1, hm2]

/-- A run of `CreatePropertyData` in which a step fails returns `NULL`, and leaves
the live blocks and the fault flag as they were. -/
theorem CreatePropertyData_failure {σ : Type} (tb : AudioToolbox σ) (g : Nat) (w : σ)
    (heap : Heap) (structOk dataOk : Bool) (audioFile propertyID : Nat)
    (hwf : heap.WellFormed)
    (hfail : ¬ (structOk = true ∧
      (GetAudioFilePropertyInfo tb g w audioFile propertyID (some 0) none).status = noErr ∧
      (GetAudioFilePropertyInfo tb g w audioFile propertyID (some 0)
        none).outDataSize.getD 0 ≠ 0 ∧
      dataOk = true ∧
      (GetAudioFileProperty tb g
        (GetAudioFilePropertyInfo tb g w audioFile propertyID (some 0) none).world audioFile
        propertyID
        (some ((GetAudioFilePropertyInfo tb g w audioFile propertyID (some 0)
          none).outDataSize.getD 0))
        (some (List.replicate ((GetAudioFilePropertyInfo tb g w audioFile propertyID (some 0)
          none).outDataSize.getD 0) 0))).status = noErr)) :
    (CreatePropertyData tb g w heap structOk dataOk audioFile propertyID).buffer = 0 ∧
    (CreatePropertyData tb g w heap structOk dataOk audioFile propertyID).heap.live
      = heap.live ∧
    (CreatePropertyData tb g w heap structOk dataOk audioFile propertyID).heap.fault
      = heap.fault := by
  have hm1 := fun b => live_map_fresh heap.live heap.next (heap.next + 1) b hwf (by omega)
  have hm2 := fun b => live_map_fresh heap.live heap.next (heap.next + 1 + 1) b hwf (by omega)
  have hf1 := live_filter_fresh heap.live heap.next (heap.next + 1) hwf (by omega)
  have hf2 := live_filter_fresh heap.live heap.next (heap.next + 1 + 1) hwf (by omega)
  cases structOk with
  | false => simp [CreatePropertyData, Heap.malloc]
  | true =>
    by_cases hinfo :
        (GetAudioFilePropertyInfo tb g w audioFile propertyID (some 0) none).status = noErr
    · by_cases hsize : (GetAudioFilePropertyInfo tb g w audioFile propertyID (some 0)
          none).outDataSize.getD 0 = 0
      · simp [CreatePropertyData, Heap.malloc, Heap.write, Heap.free, hinfo, hsize, hm1, hf1]
      · cases dataOk with
        | false =>
          simp [CreatePropertyData, Heap.malloc, Heap.write, Heap.free, hinfo, hsize, hm1, hf1]
        | true =>
          have hget : ¬ (GetAudioFileProperty tb g
              (GetAudioFilePropertyInfo tb g w audioFile propertyID (some 0) none).world
              audioFile propertyID
              (some ((GetAudioFilePropertyInfo tb g w audioFile propertyID (some 0)
                none).outDataSize.getD 0))
              (some (List.replicate ((GetAudioFilePropertyInfo tb g w audioFile propertyID
                (some 0) none).outDataSize.getD 0) 0))).status = noErr := by
            intro h
            exact hfail ⟨rfl, hinfo, hsize, rfl, h⟩
          simp [CreatePropertyData, Heap.malloc, Heap.write, Heap.free, hinfo, hsize, hget,
            hm1, hm2, hf1, hf2]
    · simp [CreatePropertyData, Heap.malloc, Heap.write, Heap.free, hinfo, hm1, hf1]

/-! ## The scoped property buffer: claims -/

/-- C14: `CreatePropertyData` is all or nothing. On a well-formed heap it returns a
buffer exactly when both allocations, the size probe (with a non-zero size) and
the fetch succeed; the buffer then records the requested id, a payload block of
the probed size with the content left by the fetch, and the size left by the
fetch. In every other case (probe failure, size 0, allocation failure, fetch
failure) it returns `NULL`, and the live blocks are those from before the call:
every allocation it made has been released, without fault. -/
theorem C14_all_or_nothing {σ : Type} (tb : AudioToolbox σ) (g : Nat) (w : σ) (heap : Heap)
    (structOk dataOk : Bool) (audioFile propertyID : Nat) (hwf : heap.WellFormed) :
    AllOrNothing tb g w heap structOk dataOk audioFile propertyID := by
  unfold AllOrNothing
  by_cases hall : structOk = true ∧
      (GetAudioFilePropertyInfo tb g w audioFile propertyID (some 0) none).status = noErr ∧
      (GetAudioFilePropertyInfo tb g w audioFile propertyID (some 0)
        none).outDataSize.getD 0 ≠ 0 ∧
      dataOk = true ∧
      (GetAudioFileProperty tb g
        (GetAudioFilePropertyInfo tb g w audioFile propertyID (some 0) none).world audioFile
        propertyID
        (some ((GetAudioFilePropertyInfo tb g w audioFile propertyID (some 0)
          none).outDataSize.getD 0))
        (some (List.replicate ((GetAudioFilePropertyInfo tb g w audioFile propertyID (some 0)
          none).outDataSize.getD 0) 0))).status = noErr
  · obtain ⟨h1, h2, h3, h4, h5⟩ := hall
    subst h1 h4
    obtain ⟨hb, hh⟩ := CreatePropertyData_success tb g w heap audioFile propertyID hwf h2 h3 h5
    refine ⟨?_, ?_, ?_⟩
    · constructor
      · intro _
        exact ⟨rfl, h2, h3, rfl, h5⟩
      · intro _
        rw [hb]
        omega
    · intro _
      exact ⟨hb, hh⟩
    · intro h0
      rw [hb] at h0
      omega
  · obtain ⟨hb, hl, hf⟩ :=
      CreatePropertyData_failure tb g w heap structOk dataOk audioFile propertyID hwf hall
    refine ⟨?_, ?_, ?_⟩
    · constructor
      · intro h
        exact absurd hb h
      · intro h
        exact absurd h hall
    · intro h
      exact absurd hb h
    · intro _
      exact ⟨hl, hf⟩

/-- Witness of C14: on the empty heap the test file gives the record at address
1 and the 8-byte payload at address 2; the file whose fetch fails gives `NULL`
and an empty heap. -/
theorem C14_all_or_nothing_witness :
    ((CreatePropertyData fmtFile 0 () Heap.empty true true 1 fmtProperty).buffer = 1 ∧
      (CreatePropertyData fmtFile 0 () Heap.empty true true 1 fmtProperty).heap
        = ⟨2, [(2, Block.bytes 8 [1, 2, 3, 4, 5, 6, 7, 8]),
            (1, Block.record ⟨2, 8, fmtProperty⟩)], [], false⟩) ∧
    ((CreatePropertyData brokenFile 0 () Heap.empty true true 1 fmtProperty).heap.live = [] ∧
      (CreatePropertyData brokenFile 0 () Heap.empty true true 1 fmtProperty).heap.fault
        = false) :=
  ⟨(C14_all_or_nothing fmtFile 0 () Heap.empty true true 1 fmtProperty (by decide)).2.1
      (by decide),
   (C14_all_or_nothing brokenFile 0 () Heap.empty true true 1 fmtProperty (by decide)).2.2
      (by decide)⟩

/-- C15, the code at the failing input: when the probe reports size 8 and the
fetch succeeds leaving `*ioDataSize = 0`, `CreatePropertyData` returns a record
whose payload pointer is not `NULL` (a live 8-byte block) and whose size field
is `0`. -/
theorem C15_zero_size_exposed :
    (CreatePropertyData shrinkingFile 0 () Heap.empty true true 1 fmtProperty).buffer = 1 ∧
    (CreatePropertyData shrinkingFile 0 () Heap.empty true true 1 fmtProperty).heap.read 1
      = some (Block.record ⟨2, 0, fmtProperty⟩) ∧
    (CreatePropertyData shrinkingFile 0 () Heap.empty true true 1 fmtProperty).heap.read 2
      = some (Block.bytes 8 [0, 0, 0, 0, 0, 0, 0, 0]) := by
  decide

/-- C16 as stated fails on a second release: releasing the buffer made by
`CreatePropertyData` once leaves a heap without fault, releasing the same
pointer again reads released storage, which is a fault and not a no-op. -/
theorem C16_counterexample :
    (CreatePropertyData fmtFile 0 () Heap.empty true true 1 fmtProperty).buffer = 1 ∧
    (FreePropertyData
      (CreatePropertyData fmtFile 0 () Heap.empty true true 1 fmtProperty).heap 1).fault
      = false ∧
    (FreePropertyData (FreePropertyData
      (CreatePropertyData fmtFile 0 () Heap.empty true true 1 fmtProperty).heap 1) 1).fault
      = true ∧
    FreePropertyData (FreePropertyData
      (CreatePropertyData fmtFile 0 () Heap.empty true true 1 fmtProperty).heap 1) 1
      ≠ FreePropertyData
        (CreatePropertyData fmtFile 0 () Heap.empty true true 1 fmtProperty).heap 1 := by
  decide

/-- C16, amended: `FreePropertyData` is a safe no-op on a null buffer, and on a
buffer returned by `CreatePropertyData` the first release frees each owned
allocation exactly once (the payload, then the record) without fault and
leaves the live blocks of before the creation. A second release of the same
pointer is not a no-op: it reads released storage, a fault. -/
theorem C16_release {σ : Type} (tb : AudioToolbox σ) (g : Nat) (w : σ) (heap : Heap)
    (structOk dataOk : Bool) (audioFile propertyID : Nat) (hwf : heap.WellFormed) :
    (∀ h : Heap, FreePropertyData h 0 = h) ∧
    ((CreatePropertyData tb g w heap structOk dataOk audioFile propertyID).buffer ≠ 0 →
      FreePropertyData (CreatePropertyData tb g w heap structOk dataOk audioFile propertyID).heap
          (CreatePropertyData tb g w heap structOk dataOk audioFile propertyID).buffer
        = ⟨heap.next + 2, heap.live, heap.freed ++ [heap.next + 2, heap.next + 1], heap.fault⟩ ∧
      (FreePropertyData
        (FreePropertyData
          (CreatePropertyData tb g w heap structOk dataOk audioFile propertyID).heap
          (CreatePropertyData tb g w heap structOk dataOk audioFile propertyID).buffer)
        (CreatePropertyData tb g w heap structOk dataOk audioFile propertyID).buffer).fault
        = true) := by
  refine ⟨fun h => by simp [FreePropertyData], ?_⟩
  intro hbuf
  have hall : structOk = true ∧
      (GetAudioFilePropertyInfo tb g w audioFile propertyID (some 0) none).status = noErr ∧
      (GetAudioFilePropertyInfo tb g w audioFile propertyID (some 0)
        none).outDataSize.getD 0 ≠ 0 ∧
      dataOk = true ∧
      (GetAudioFileProperty tb g
        (GetAudioFilePropertyInfo tb g w audioFile propertyID (some 0) none).world audioFile
        propertyID
        (some ((GetAudioFilePropertyInfo tb g w audioFile propertyID (some 0)
          none).outDataSize.getD 0))
        (some (List.replicate ((GetAudioFilePropertyInfo tb g w audioFile propertyID (some 0)
          none).outDataSize.getD 0) 0))).status = noErr := by
    by_contra hno
    exact hbuf
      (CreatePropertyData_failure tb g w heap structOk dataOk audioFile propertyID hwf hno).1
  obtain ⟨h1, h2, h3, h4, h5⟩ := hall
  subst h1 h4
  obtain ⟨hb, hh⟩ := CreatePropertyData_success tb g w heap audioFile propertyID hwf h2 h3 h5
  have hf1 := live_filter_fresh heap.live heap.next (heap.next + 1) hwf (by omega)
  have hf2 := live_filter_fresh heap.live heap.next (heap.next + 2) hwf (by omega)
  have hn1 := live_find_fresh heap.live heap.next (heap.next + 1) hwf (by omega)
  have hfirst : FreePropertyData
      (CreatePropertyData tb g w heap true true audioFile propertyID).heap
      (CreatePropertyData tb g w heap true true audioFile propertyID).buffer
      = ⟨heap.next + 2, heap.live, heap.freed ++ [heap.next + 2, heap.next + 1], heap.fault⟩ := by
    rw [hb, hh]
    simp [FreePropertyData, Heap.read, Heap.free, hf1, hf2]
  refine ⟨hfirst, ?_⟩
  rw [hfirst, hb]
  simp [FreePropertyData, Heap.read, hn1]

/-- Witness of C16: the buffer made on the empty heap from the test file is
released by freeing address 2 and then address 1. -/
theorem C16_release_witness :
    FreePropertyData (CreatePropertyData fmtFile 0 () Heap.empty true true 1 fmtProperty).heap
        (CreatePropertyData fmtFile 0 () Heap.empty true true 1 fmtProperty).buffer
      = ⟨Heap.empty.next + 2, Heap.empty.live,
          Heap.empty.freed ++ [Heap.empty.next + 2, Heap.empty.next + 1], Heap.empty.fault⟩ ∧
    (FreePropertyData
      (FreePropertyData (CreatePropertyData fmtFile 0 () Heap.empty true true 1 fmtProperty).heap
        (CreatePropertyData fmtFile 0 () Heap.empty true true 1 fmtProperty).buffer)
      (CreatePropertyData fmtFile 0 () Heap.empty true true 1 fmtProperty).buffer).fault
      = true :=
  (C16_release fmtFile 0 () Heap.empty true true 1 fmtProperty (by decide)).2 (by decide)

/-! ## The timer: claims -/

theorem StopTimer_fresh (clocks : List Nat) :
    clocks.foldl StopTimer (some ⟨0, 0, false⟩) = some ⟨0, 0, false⟩ := by
  induction clocks with
  | nil => rfl
  | cons c cs ih => simpa [List.foldl_cons, StopTimer] using ih

/-- C17: the timer baseline. A timer fresh from `CreatePerformanceTimer` on which
`StartTimer` was never called is unchanged by any number of `StopTimer` calls
(start and end time 0, not running); its elapsed ticks are 0 whatever the
clock shows, and `GetElapsedSeconds` returns exactly 0 (for a timebase with a
non-zero denominator, as `mach_timebase_info` provides). `GetElapsedSeconds` on
a null timer returns 0 as well. -/
theorem C17_timer_baseline (platform : mach_timebase_info_data_t) (st : TimebaseState)
    (clocks : List Nat) (now : Nat) :
    clocks.foldl StopTimer (CreatePerformanceTimer true) = some ⟨0, 0, false⟩ ∧
    elapsedTicks ⟨0, 0, false⟩ now = 0 ∧
    ((InitializeTimebase platform st).g_timebase_info.denom ≠ 0 →
      (GetElapsedSeconds platform st (clocks.foldl StopTimer (CreatePerformanceTimer true))
        now).1 = some 0) ∧
    (GetElapsedSeconds platform st none now).1 = some 0 := by
  have hfresh : clocks.foldl StopTimer (CreatePerformanceTimer true) = some ⟨0, 0, false⟩ :=
    StopTimer_fresh clocks
  have hticks : elapsedTicks ⟨0, 0, false⟩ now = 0 := by
    simp [elapsedTicks]
  refine ⟨hfresh, hticks, ?_, rfl⟩
  intro hden
  rw [hfresh]
  simp [GetElapsedSeconds, MachTimeToSeconds, hticks, hden]

/-- Witness of C17: three stops at clock values 5, 9 and 40, then a reading at
clock value 99 on a 125/3 timebase. -/
theorem C17_timer_baseline_witness :
    (GetElapsedSeconds ⟨125, 3⟩ ⟨⟨0, 0⟩, false⟩
      ([5, 9, 40].foldl StopTimer (CreatePerformanceTimer true)) 99).1 = some 0 :=
  (C17_timer_baseline ⟨125, 3⟩ ⟨⟨0, 0⟩, false⟩ [5, 9, 40] 99).2.2.1 (by decide)

/-! ## The codec: buffer sizes and the reverse round trip -/

theorem decDigits_range (k : Nat) : ∀ n, ∀ x ∈ decDigits k n, 48 ≤ x ∧ x ≤ 57 := by
  induction k with
  | zero => intro n x hx; simp [decDigits] at hx
  | succ k ih =>
    intro n x hx
    rw [decDigits] at hx
    split at hx
    · simp at hx; omega
    · simp only [List.mem_append, List.mem_singleton] at hx
      rcases hx with hx | hx
      · exact ih _ x hx
      · omega

theorem formatInt_no_nul (v : Int) : ∀ x ∈ formatInt v, x % 256 ≠ 0 := by
  intro x hx
  unfold formatInt at hx
  split at hx
  · simp only [List.mem_cons] at hx
    rcases hx with hx | hx
    · omega
    · have := decDigits_range _ _ x hx
      omega
  · have := decDigits_range _ _ x hx
    omega

/-- C18 as stated fails at `v = 0`: "noErr" needs 6 bytes with its NUL, and the
buffer allocated for it has 8. -/
theorem C18_counterexample :
    (FourCharCodeToString true 0).map (fun s => s.text) = some noErrText ∧
    (FourCharCodeToString true 0).map (fun s => s.text.length + 1) = some 6 ∧
    (FourCharCodeToString true 0).map (fun s => s.capacity) = some 8 := by
  decide

/-- C18, amended: decoding is total and never truncated. For every 32-bit status
`v`, when the allocation succeeds `FourCharCodeToString v` yields a string
without an inner NUL that fits with its terminator in the buffer allocated:
"noErr" (5 chars) in 8 bytes, the quoted tag (6 chars) in 7 bytes, or the whole
decimal string of `v` (at most 11 chars) in 12 bytes. The 7 bytes are exactly
what the tag needs and the 12 bytes what the longest decimal, `-2147483648`,
needs; the 8 bytes of "noErr" are two more than it needs. -/
theorem C18_total_untruncated (v : Int) (hv : IsOSStatus v) :
    (∃ s, FourCharCodeToString true v = some s ∧ s.text.length + 1 ≤ s.capacity ∧
      (∀ b ∈ s.text, b % 256 ≠ 0) ∧
      (v = 0 → s = ⟨8, noErrText⟩ ∧ s.text.length + 1 = 6) ∧
      (v ≠ 0 → IsPrintableFourCharCode v = true →
        s = ⟨7, quotedTag v⟩ ∧ s.text.length + 1 = 7) ∧
      (v ≠ 0 → IsPrintableFourCharCode v = false →
        s = ⟨12, decimalString v⟩ ∧ s.text.length + 1 ≤ 12)) ∧
    (decimalString (-2147483648)).length + 1 = 12 := by
  refine ⟨?_, by decide⟩
  by_cases h0 : v = 0
  · subst h0
    refine ⟨⟨8, noErrText⟩, rfl, by decide, by decide, ?_, ?_, ?_⟩
    · intro _; exact ⟨rfl, rfl⟩
    · intro h; exact absurd rfl h
    · intro h; exact absurd rfl h
  · by_cases hp : IsPrintableFourCharCode v = true
    · have hb := (isPrintable_iff v).1 hp
      refine ⟨⟨7, quotedTag v⟩, FourCharCodeToString_printable v h0 hp, by simp [quotedTag],
        ?_, ?_, ?_, ?_⟩
      · intro b hmem
        simp only [quotedTag, List.mem_cons, List.mem_singleton, List.not_mem_nil,
          or_false] at hmem
        have c0 := hb 0 (by omega)
        have c1 := hb 1 (by omega)
        have c2 := hb 2 (by omega)
        have c3 := hb 3 (by omega)
        rcases hmem with h | h | h | h | h | h <;> subst h <;> omega
      · intro h; exact absurd h h0
      · intro _ _; exact ⟨rfl, by simp [quotedTag]⟩
      · intro _ hn; rw [hp] at hn; cases hn
    · have hp : IsPrintableFourCharCode v = false := by simpa using hp
      have hlen := formatInt_length v
      have heq : decimalString v = formatInt v := by
        rw [decimalString, formatInt_eq_repr v hv]
      refine ⟨⟨12, decimalString v⟩, ?_, ?_, ?_, ?_, ?_, ?_⟩
      · rw [FourCharCodeToString_decimal v h0 hp, heq]
      · simp only [heq]; omega
      · intro b hmem
        simp only [heq] at hmem
        exact formatInt_no_nul v b hmem
      · intro h; exact absurd h h0
      · intro _ hn; rw [hp] at hn; cases hn
      · intro _ _
        refine ⟨rfl, ?_⟩
        simp only [heq]; omega

/-- Witness of C18 at the most negative status, whose decimal string fills the
12-byte buffer. -/
theorem C18_total_untruncated_witness :
    ∃ s, FourCharCodeToString true (-2147483648) = some s ∧ s.text.length + 1 ≤ s.capacity ∧
      (∀ b ∈ s.text, b % 256 ≠ 0) ∧
      ((-2147483648 : Int) = 0 → s = ⟨8, noErrText⟩ ∧ s.text.length + 1 = 6) ∧
      ((-2147483648 : Int) ≠ 0 → IsPrintableFourCharCode (-2147483648) = true →
        s = ⟨7, quotedTag (-2147483648)⟩ ∧ s.text.length + 1 = 7) ∧
      ((-2147483648 : Int) ≠ 0 → IsPrintableFourCharCode (-2147483648) = false →
        s = ⟨12, decimalString (-2147483648)⟩ ∧ s.text.length + 1 ≤ 12) :=
  (C18_total_untruncated (-2147483648) (by decide)).1

theorem or_high_left (x y : Nat) (hx : 2147483648 ≤ x) (hx2 : x < 4294967296) :
    2147483648 ≤ x ||| y := by
  have hbit : (x ||| y).testBit 31 = true := by
    rw [Nat.testBit_or, Nat.testBit_to_div_mod]
    have hdiv : x / 2147483648 % 2 = 1 := by omega
    simp [hdiv]
  have := Nat.testBit_implies_ge hbit
  norm_num at this
  exact this

theorem or_high_right (x y : Nat) (hy : 2147483648 ≤ y) (hy2 : y < 4294967296) :
    2147483648 ≤ x ||| y := by
  rw [Nat.lor_comm]
  exact or_high_left y x hy hy2

theorem shl32_lt (x k : Nat) : shl32 x k < 4294967296 := Nat.mod_lt _ (by norm_num)

theorem toUInt32_lt (x : Int) : toUInt32 x < 4294967296 := by
  unfold toUInt32
  omega

theorem toOSStatus_neg (u : Nat) (h1 : 2147483648 ≤ u) (h2 : u < 4294967296) :
    toOSStatus u < 0 := by
  unfold toOSStatus
  split <;> omega

theorem toOSStatus_range (u : Nat) : IsOSStatus (toOSStatus u) := by
  unfold IsOSStatus toOSStatus
  split <;> omega

/-- A byte from `0x80` up in position 1, 2 or 3 sets the sign bit of the packed
code. -/
theorem StringToFourCharCode_high (b0 b1 b2 b3 : Nat) (h0 : 1 ≤ b0 ∧ b0 ≤ 255)
    (h1 : 1 ≤ b1 ∧ b1 ≤ 255) (h2 : 1 ≤ b2 ∧ b2 ≤ 255) (h3 : 1 ≤ b3 ∧ b3 ≤ 255)
    (hhigh : 128 ≤ b1 ∨ 128 ≤ b2 ∨ 128 ≤ b3) :
    StringToFourCharCode (some [b0, b1, b2, b3]) < 0 := by
  have hl : strlen [b0, b1, b2, b3] = 4 :=
    strlen_four b0 b1 b2 b3 (by omega) (by omega) (by omega) (by omega)
  simp only [StringToFourCharCode, hl, ne_eq, not_true_eq_false, if_false, charAt,
    List.getD_cons_zero, List.getD_cons_succ]
  have hA := shl32_lt (toUInt32 (charValue b0)) 24
  have hB := shl32_lt (toUInt32 (charValue b1)) 16
  have hC := shl32_lt (toUInt32 (charValue b2)) 8
  have hD := toUInt32_lt (charValue b3)
  have hAB := Nat.or_lt_two_pow (n := 32) hA hB
  have hABC := Nat.or_lt_two_pow (n := 32) hAB hC
  have hABCD := Nat.or_lt_two_pow (n := 32) hABC hD
  apply toOSStatus_neg _ _ hABCD
  rcases hhigh with h | h | h
  · have hBh : 2147483648 ≤ shl32 (toUInt32 (charValue b1)) 16 := by
      simp only [shl32, Nat.shiftLeft_eq, toUInt32, charValue]
      split <;> omega
    exact or_high_left _ _ (or_high_left _ _ (or_high_right _ _ hBh hB) hAB) hABC
  · have hCh : 2147483648 ≤ shl32 (toUInt32 (charValue b2)) 8 := by
      simp only [shl32, Nat.shiftLeft_eq, toUInt32, charValue]
      split <;> omega
    exact or_high_left _ _ (or_high_right _ _ hCh hC) hABC
  · have hDh : 2147483648 ≤ toUInt32 (charValue b3) := by
      simp only [toUInt32, charValue]
      split <;> omega
    exact or_high_right _ _ hDh hD

theorem codeChars_sum (v : Int) :
    codeChars v 0 * 16777216 + codeChars v 1 * 65536 + codeChars v 2 * 256 + codeChars v 3
      = toUInt32 v := by
  have := toUInt32_lt v
  simp only [codeChars]
  norm_num
  omega

/-- C19 as stated fails at the string "fmt?": it has exactly four bytes and
packs to the very value returned for invalid input. -/
theorem C19_counterexample :
    strlen [102, 109, 116, 63] = 4 ∧
    StringToFourCharCode (some [102, 109, 116, 63]) = kAudioFileUnsupportedDataFormatError ∧
    StringToFourCharCode (some [102, 109, 116, 63]) = StringToFourCharCode none := by
  decide

/-- C19, amended: for every string of exactly four bytes other than "fmt?",
`StringToFourCharCode` differs from the value it returns for invalid input,
`kAudioFileUnsupportedDataFormatError`; for "fmt?" it is that value. -/
theorem C19_distinguishable (b0 b1 b2 b3 : Nat) (h0 : 1 ≤ b0 ∧ b0 ≤ 255)
    (h1 : 1 ≤ b1 ∧ b1 ≤ 255) (h2 : 1 ≤ b2 ∧ b2 ≤ 255) (h3 : 1 ≤ b3 ∧ b3 ≤ 255) :
    StringToFourCharCode (some [b0, b1, b2, b3]) = kAudioFileUnsupportedDataFormatError ↔
      [b0, b1, b2, b3] = [102, 109, 116, 63] := by
  constructor
  · intro h
    by_cases hlow : b1 ≤ 127 ∧ b2 ≤ 127 ∧ b3 ≤ 127
    · rw [StringToFourCharCode_pack b0 b1 b2 b3 h0 ⟨h1.1, hlow.1⟩ ⟨h2.1, hlow.2.1⟩
        ⟨h3.1, hlow.2.2⟩] at h
      simp only [toOSStatus, kAudioFileUnsupportedDataFormatError] at h
      have hb : b0 = 102 ∧ b1 = 109 ∧ b2 = 116 ∧ b3 = 63 := by
        split at h <;> omega
      obtain ⟨rfl, rfl, rfl, rfl⟩ := hb
      rfl
    · have hneg := StringToFourCharCode_high b0 b1 b2 b3 h0 h1 h2 h3 (by omega)
      rw [h] at hneg
      exact absurd hneg (by decide)
  · intro h
    simp only [List.cons.injEq, and_true] at h
    obtain ⟨rfl, rfl, rfl, rfl⟩ := h
    decide

/-- Witness of C19 at the string "data". -/
theorem C19_distinguishable_witness :
    StringToFourCharCode (some [100, 97, 116, 97]) = kAudioFileUnsupportedDataFormatError ↔
      [100, 97, 116, 97] = [102, 109, 116, 63] :=
  C19_distinguishable 100 97 116 97 (by decide) (by decide) (by decide) (by decide)

theorem printableString_cases (s : List Nat) (hs : IsPrintableString s) :
    ∃ b0 b1 b2 b3, s = [b0, b1, b2, b3] ∧ (32 ≤ b0 ∧ b0 ≤ 126) ∧ (32 ≤ b1 ∧ b1 ≤ 126) ∧
      (32 ≤ b2 ∧ b2 ≤ 126) ∧ (32 ≤ b3 ∧ b3 ≤ 126) := by
  obtain ⟨hlen, hb⟩ := hs
  match s, hlen, hb with
  | [b0, b1, b2, b3], _, hb =>
    exact ⟨b0, b1, b2, b3, rfl, hb b0 (by simp), hb b1 (by simp), hb b2 (by simp),
      hb b3 (by simp)⟩

theorem StringToFourCharCode_printable (b0 b1 b2 b3 : Nat) (h0 : 32 ≤ b0 ∧ b0 ≤ 126)
    (h1 : 32 ≤ b1 ∧ b1 ≤ 126) (h2 : 32 ≤ b2 ∧ b2 ≤ 126) (h3 : 32 ≤ b3 ∧ b3 ≤ 126) :
    StringToFourCharCode (some [b0, b1, b2, b3])
      = toOSStatus (b0 * 16777216 + b1 * 65536 + b2 * 256 + b3) :=
  StringToFourCharCode_pack b0 b1 b2 b3 (by omega) (by omega) (by omega) (by omega)

/-- C20: the reverse round trip. For every 32-bit status `v` that
`IsPrintableFourCharCode` accepts, the four characters between the quotes of
`FourCharCodeToString v`, passed to `StringToFourCharCode`, give `v` back. Hence
`StringToFourCharCode` is injective on the strings of four printable ASCII
bytes, maps each of them to a printable code, and reaches every printable
code: a bijection between the two. -/
theorem C20_reverse_round_trip :
    (∀ v, IsOSStatus v → IsPrintableFourCharCode v = true →
      ∃ s, FourCharCodeToString true v = some s ∧
        StringToFourCharCode (some ((s.text.drop 1).take 4)) = v) ∧
    (∀ s t, IsPrintableString s → IsPrintableString t →
      StringToFourCharCode (some s) = StringToFourCharCode (some t) → s = t) ∧
    (∀ s, IsPrintableString s →
      IsOSStatus (StringToFourCharCode (some s)) ∧
      IsPrintableFourCharCode (StringToFourCharCode (some s)) = true) ∧
    (∀ v, IsOSStatus v → IsPrintableFourCharCode v = true →
      ∃ s, IsPrintableString s ∧ StringToFourCharCode (some s) = v) := by
  have hback : ∀ v, IsOSStatus v → IsPrintableFourCharCode v = true →
      StringToFourCharCode (some [codeChars v 0, codeChars v 1, codeChars v 2, codeChars v 3])
        = v := by
    intro v hv hp
    have hb := (isPrintable_iff v).1 hp
    rw [StringToFourCharCode_printable _ _ _ _ (hb 0 (by omega)) (hb 1 (by omega))
      (hb 2 (by omega)) (hb 3 (by omega)), codeChars_sum, toOSStatus_toUInt32 v hv]
  have himage : ∀ s, IsPrintableString s →
      IsOSStatus (StringToFourCharCode (some s)) ∧
      IsPrintableFourCharCode (StringToFourCharCode (some s)) = true ∧
      s = [codeChars (StringToFourCharCode (some s)) 0,
        codeChars (StringToFourCharCode (some s)) 1,
        codeChars (StringToFourCharCode (some s)) 2,
        codeChars (StringToFourCharCode (some s)) 3] := by
    intro s hs
    obtain ⟨b0, b1, b2, b3, rfl, h0, h1, h2, h3⟩ := printableString_cases s hs
    rw [StringToFourCharCode_printable b0 b1 b2 b3 h0 h1 h2 h3]
    obtain ⟨e0, e1, e2, e3⟩ :=
      codeChars_pack b0 b1 b2 b3 (by omega) (by omega) (by omega) (by omega)
    refine ⟨toOSStatus_range _, ?_, ?_⟩
    · rw [isPrintable_iff]
      intro i hi
      interval_cases i
      · rw [e0]; exact h0
      · rw [e1]; exact h1
      · rw [e2]; exact h2
      · rw [e3]; exact h3
    · rw [e0, e1, e2, e3]
  refine ⟨?_, ?_, ?_, ?_⟩
  · intro v hv hp
    have h0 : v ≠ 0 := by
      rintro rfl
      revert hp
      decide
    refine ⟨⟨7, quotedTag v⟩, FourCharCodeToString_printable v h0 hp, ?_⟩
    simpa [quotedTag] using hback v hv hp
  · intro s t hs ht heq
    rw [(himage s hs).2.2, (himage t ht).2.2, heq]
  · intro s hs
    exact ⟨(himage s hs).1, (himage s hs).2.1⟩
  · intro v hv hp
    have hb := (isPrintable_iff v).1 hp
    refine ⟨[codeChars v 0, codeChars v 1, codeChars v 2, codeChars v 3], ⟨rfl, ?_⟩,
      hback v hv hp⟩
    intro b hmem
    simp only [List.mem_cons, List.mem_singleton, List.not_mem_nil, or_false] at hmem
    rcases hmem with h | h | h | h <;> subst h
    · exact hb 0 (by omega)
    · exact hb 1 (by omega)
    · exact hb 2 (by omega)
    · exact hb 3 (by omega)

/-- Witness of C20 at the code `'fmt '`. -/
theorem C20_reverse_round_trip_witness :
    ∃ s, FourCharCodeToString true 0x666D7420 = some s ∧
      StringToFourCharCode (some ((s.text.drop 1).take 4)) = 0x666D7420 :=
  C20_reverse_round_trip.1 0x666D7420 (by decide) (by decide)
end CoreAudio
